import Mathlib

/-!
Shallow embedding of the `mapclientplugins.scaffoldcreator` plugin's
coordination logic, translated from
`src/mapclientplugins/scaffoldcreator/model/scaffoldcreatormodel.py`,
`src/mapclientplugins/scaffoldcreator/model/mastermodel.py` and
`src/mapclientplugins/scaffoldcreator/step.py`.

Modelling conventions:
* Python dicts are embedded as insertion-ordered association lists
  (`SettingsDict`); `d[k] = v` keeps the position of an existing key and
  appends otherwise, exactly as CPython does.
* The external `scaffoldmaker.ScaffoldPackage` object is embedded as the
  value `SPkg` (type, settings dict, mesh edits string, rotation, scale,
  translation, plus an opaque representation of the user annotation
  groups).  `copy.deepcopy` on it is the identity on values, and its
  `__eq__` is structural equality.
* Behaviour of the external scaffoldmaker / cmlibs(Zinc) libraries that the
  repository merely calls (mesh generation, option checking, stream
  serialisation, parameter-set tables) is abstracted into an `Env` record
  of functions; the repository's own control flow is translated literally.
* Python floats are embedded as `Rat`; the partial builtin conversions
  `float(text)` / `int(text)` are environment functions returning `Option`
  (`none` models a raised `ValueError`).
* Operations that can hit a failed `assert` or an uncaught `KeyError` /
  `IndexError` return `Except String _`; a caught exception (a `try`
  block, or the `except ValueError: return` path) is ordinary control
  flow, not an `Except.error`.
-/

namespace ScaffoldCreatorSpec

mutual

/-- Value stored in a scaffold settings dict or in the model's display
settings dict: Python bool, int, float, str, list of int/float/str, nested
dict, or a nested `ScaffoldPackage`. -/
inductive OptionValue where
  | vBool (b : Bool)
  | vInt (n : Int)
  | vFloat (q : Rat)
  | vStr (s : String)
  | vListInt (l : List Int)
  | vListFloat (l : List Rat)
  | vListStr (l : List String)
  | vDict (d : SettingsDict)
  | vPackage (p : SPkg)
deriving DecidableEq

/-- Embedding of the external `scaffoldmaker.scaffoldpackage.ScaffoldPackage`
object: scaffold type (an opaque identifier), scaffold settings dict, the
optional serialised mesh-edits string, the rotation / scale / translation
transformation lists, and an opaque representation of its user annotation
groups. -/
inductive SPkg where
  | mk (typeId : Nat) (settings : SettingsDict) (meshEdits : Option String)
      (rotation : List Rat) (scale : List Rat) (translation : List Rat)
      (userAnnGroups : Nat)
deriving DecidableEq

/-- Insertion-ordered association list embedding a Python dict with String
keys. -/
inductive SettingsDict where
  | nil
  | cons (key : String) (value : OptionValue) (rest : SettingsDict)
deriving DecidableEq

end

namespace SPkg

/-- Scaffold type of a package (`getScaffoldType`, as an opaque id). -/
def typeId : SPkg → Nat
  | .mk t _ _ _ _ _ _ => t

/-- Settings dict of a package (`getScaffoldSettings`). -/
def settings : SPkg → SettingsDict
  | .mk _ s _ _ _ _ _ => s

/-- Mesh edits of a package (`getMeshEdits`). -/
def meshEdits : SPkg → Option String
  | .mk _ _ m _ _ _ _ => m

/-- Rotation of a package (`getRotation`). -/
def rotation : SPkg → List Rat
  | .mk _ _ _ r _ _ _ => r

/-- Scale of a package (`getScale`). -/
def scale : SPkg → List Rat
  | .mk _ _ _ _ sc _ _ => sc

/-- Translation of a package (`getTranslation`). -/
def translation : SPkg → List Rat
  | .mk _ _ _ _ _ tr _ => tr

/-- Opaque user annotation groups of a package. -/
def userAnnGroups : SPkg → Nat
  | .mk _ _ _ _ _ _ a => a

/-- Model of `ScaffoldPackage.setMeshEdits`. -/
def setMeshEdits : SPkg → Option String → SPkg
  | .mk t s _ r sc tr a, m => .mk t s m r sc tr a

/-- Model of `ScaffoldPackage.setRotation` (field update part). -/
def setRotation : SPkg → List Rat → SPkg
  | .mk t s m _ sc tr a, r => .mk t s m r sc tr a

/-- Model of `ScaffoldPackage.setScale` (field update part). -/
def setScale : SPkg → List Rat → SPkg
  | .mk t s m r _ tr a, sc => .mk t s m r sc tr a

/-- Model of `ScaffoldPackage.setTranslation` (field update part). -/
def setTranslation : SPkg → List Rat → SPkg
  | .mk t s m r sc _ a, tr => .mk t s m r sc tr a

/-- Replace the settings dict of a package (in Python the dict is mutated
in place through the reference returned by `getScaffoldSettings`). -/
def setSettingsDict : SPkg → SettingsDict → SPkg
  | .mk t _ m r sc tr a, s => .mk t s m r sc tr a

/-- Replace the opaque user annotation groups representation
(effect of `updateUserAnnotationGroups`). -/
def setUserAnnGroups : SPkg → Nat → SPkg
  | .mk t s m r sc tr _, a => .mk t s m r sc tr a

end SPkg

instance : Inhabited SPkg := ⟨.mk 0 .nil none [] [] [] 0⟩

namespace SettingsDict

/-- Python `d.get(k)` / `d[k]` lookup: value at the first (unique) binding
of the key, if any. -/
def find? : SettingsDict → String → Option OptionValue
  | .nil, _ => none
  | .cons k v rest, key => if k = key then some v else rest.find? key

/-- Python `d[k] = v`: replace the value at an existing key in place,
otherwise append the new binding at the end. -/
def set : SettingsDict → String → OptionValue → SettingsDict
  | .nil, key, v => .cons key v .nil
  | .cons k v0 rest, key, v =>
      if k = key then .cons k v rest else .cons k v0 (rest.set key v)

/-- Python `del d[k]`: remove the binding of the key, if present. -/
def erase : SettingsDict → String → SettingsDict
  | .nil, _ => .nil
  | .cons k v rest, key => if k = key then rest else .cons k v (rest.erase key)

/-- Python `d.update(other)`: assign every binding of `other`, in order. -/
def update (d : SettingsDict) : SettingsDict → SettingsDict
  | .nil => d
  | .cons k v rest => (d.set k v).update rest

/-- Keys of the dict, in insertion order. -/
def keys : SettingsDict → List String
  | .nil => []
  | .cons k _ rest => k :: rest.keys

/-- Python `k in d`. -/
def contains (d : SettingsDict) (key : String) : Bool :=
  (d.find? key).isSome

/-- Build a dict from an association list (a Python dict literal). -/
def ofList : List (String × OptionValue) → SettingsDict
  | [] => .nil
  | (k, v) :: rest => .cons k v (ofList rest)

end SettingsDict

/-- Model of Python `text.split(sep)` for a single-character separator (the
repository always splits on `','` or `'*'`): cut at every occurrence of the
separator, keeping empty segments, so the result is always non-empty. -/
def splitChars (delimiter : Char) : List Char → List (List Char)
  | [] => [[]]
  | c :: rest =>
    let r := splitChars delimiter rest
    if c = delimiter then [] :: r
    else
      match r with
      | t :: ts => (c :: t) :: ts
      | [] => [[c]]

/-- Translation of `parseListFloat(text, delimiter)`: parse each segment
with `float(...)` (abstracted as `pyFloat`), substituting `0.0` for a
segment raising ValueError. -/
def parseListFloat (pyFloat : String → Option Rat) (text : String)
    (delimiter : Char) : List Rat :=
  (splitChars delimiter text.data).map fun s =>
    match pyFloat (String.mk s) with
    | some v => v
    | none => 0

/-- Translation of `parseListInt(text, delimiter)`: parse each segment with
`int(...)` (abstracted as `pyInt`), substituting `0` for a segment raising
ValueError. -/
def parseListInt (pyInt : String → Option Int) (text : String)
    (delimiter : Char) : List Int :=
  (splitChars delimiter text.data).map fun s =>
    match pyInt (String.mk s) with
    | some v => v
    | none => 0

/-- Translation of the padding loop of `parseVector3`:
`for i in range(n): vector.append(vector[-1])`.  `none` models the
IndexError raised by `vector[-1]` on an empty list. -/
def appendRepeatLast : List Rat → Nat → Option (List Rat)
  | v, 0 => some v
  | [], _ + 1 => none
  | a :: as, n + 1 => appendRepeatLast ((a :: as) ++ [(a :: as).getLastD 0]) n

/-- Translation of `parseVector3(vectorText, delimiter, defaultValue)`:
split, parse each segment with `float(...)` (abstracted as `pyFloat`)
substituting `defaultValue` on ValueError, truncate to 3 components, or pad
to 3 by repeating the last component. -/
def parseVector3 (pyFloat : String → Option Rat) (vectorText : String)
    (delimiter : Char) (defaultValue : Rat) : Option (List Rat) :=
  let vector := (splitChars delimiter vectorText.data).map fun valueText =>
    match pyFloat (String.mk valueText) with
    | some v => v
    | none => defaultValue
  if 3 < vector.length then some (vector.take 3)
  else appendRepeatLast vector (3 - vector.length)

/-- State of the Zinc region owned by the model that the claims depend on:
which fields are defined in its fieldmodule, the state of the 'meshEdits'
group field (valid / managed / empty), and an opaque remainder. -/
structure Region where
  fieldNames : List String
  meshEditsValid : Bool
  meshEditsManaged : Bool
  meshEditsEmpty : Bool
  blob : Nat
deriving DecidableEq

instance : Inhabited Region := ⟨⟨[], false, false, true, 0⟩⟩

/-- Behaviour of the external scaffoldmaker / cmlibs libraries (and of the
Python builtins `float` and `int` on strings, and stdlib `json.loads`),
which the repository calls but does not implement.  Scaffold types are
opaque identifiers. -/
structure Env where
  /-- Data of `Scaffolds().getScaffoldTypes()`: (type id, `getName()`). -/
  allScaffoldTypes : List (Nat × String)
  /-- Type of `Scaffolds().getDefaultScaffoldType()`. -/
  defaultScaffoldTypeId : Nat
  /-- `ScaffoldPackage(scaffoldType)` default construction. -/
  newScaffoldPackage : Nat → SPkg
  /-- `ScaffoldPackage(scaffoldType, dct)` with dct holding `scaffoldSettings`. -/
  scaffoldPackageWithSettings : Nat → SettingsDict → SPkg
  /-- `scaffoldType.getParameterSetNames()`. -/
  parameterSetNames : Nat → List String
  /-- `scaffoldType.getDefaultOptions(parameterSetName)`. -/
  defaultOptions : Nat → String → SettingsDict
  /-- `parentScaffoldType.getOptionScaffoldTypeParameterSetNames(optionName, scaffoldType)`. -/
  optionParameterSetNames : Nat → String → Nat → List String
  /-- `parentScaffoldType.getOptionScaffoldPackage(optionName, scaffoldType, parameterSetName)`. -/
  optionScaffoldPackage : Nat → String → Nat → String → SPkg
  /-- `scaffoldType.checkOptions(settings)`: the settings dict after the
  call, paired with the returned dependent-changes flag. -/
  checkOptions : Nat → SettingsDict → SettingsDict × Bool
  /-- Effect of `scaffoldPackage.updateUserAnnotationGroups()` on the
  opaque annotation-groups component. -/
  updateUserAnnotationGroups : Region → SPkg → Nat
  /-- `exnodeStringFromGroup(region, groupName, fieldNames)` (Zinc stream
  serialisation to a memory buffer). -/
  exnodeString : Region → String → List String → String
  /-- Region contents after `scaffoldPackage.generate(region)` followed by
  `deleteElementsInRanges(region, deleteElementRanges)`. -/
  generate : SPkg → List (Int × Int) → Region
  /-- Interactive function table of a scaffold type: name to behaviour
  `(region, settings, options) -> (region, settings, settingsChanged,
  nodesChanged)`; `none` when no function of that name exists. -/
  interactiveFn : Nat → String →
    Option (Region → SettingsDict → SettingsDict →
      Region × SettingsDict × Bool × Bool)
  /-- Return value of `scaffoldPackage.applyTransformation(field)`. -/
  applyTransformationChanged : SPkg → Bool
  /-- Effect of `scaffoldPackage.applyTransformation(field)` on the region. -/
  applyTransformationRegion : SPkg → Region → Region
  /-- Effect of `meshEditsNodeset.addNodesConditional(...)` marking all
  nodes as edited. -/
  markAllNodesEdited : Region → Region
  /-- `identifier_ranges_from_string`. -/
  rangesFromString : String → List (Int × Int)
  /-- `identifier_ranges_to_string`. -/
  rangesToString : List (Int × Int) → String
  /-- Python `float(text)`; `none` models a raised ValueError. -/
  pyFloat : String → Option Rat
  /-- Python `int(text)`; `none` models a raised ValueError. -/
  pyInt : String → Option Int
  /-- `json.loads(text, object_hook=Scaffolds_decodeJSON)`; `none` models
  any exception raised while reading or decoding. -/
  parseSettingsJson : String → Option SettingsDict

/-- Mutable state of `ScaffoldCreatorModel` needed by the claims.  The
stacks keep the Python list orientation: index 0 is the root, the last
entry is the scaffold currently being edited.  `generationCount` counts
`_generateMesh` calls so that theorems can speak about regeneration. -/
structure CreatorState where
  scaffoldPackages : List SPkg
  scaffoldPackageOptionNames : List (Option String)
  parameterSetName : Option String
  customScaffoldPackage : Option SPkg
  unsavedNodeEdits : Bool
  settings : SettingsDict
  deleteElementRanges : List (Int × Int)
  region : Region
  generationCount : Nat
deriving DecidableEq

/-- Python's `self._scaffoldPackages[-1]` (defined off the empty stack only
for totality; the stack is never empty, see the stack invariant). -/
def topPkg (st : CreatorState) : SPkg :=
  st.scaffoldPackages.getLastD default

/-- Replace the last element of the stack by its image under `f`
(Python mutation of `self._scaffoldPackages[-1]`). -/
def modifyLast (f : SPkg → SPkg) : List SPkg → List SPkg
  | [] => []
  | [p] => [f p]
  | p :: q :: rest => p :: modifyLast f (q :: rest)

/-- Node derivative labels `self._nodeDerivativeLabels`. -/
def nodeDerivativeLabels : List String :=
  ["D1", "D2", "D3", "D12", "D13", "D23", "D123"]

/-- Display settings dict built in `ScaffoldCreatorModel.__init__`. -/
def initialSettings (scaffoldPackage : SPkg) : SettingsDict :=
  .ofList [
    ("scaffoldPackage", .vPackage scaffoldPackage),
    ("deleteElementRanges", .vStr ""),
    ("displayNodePoints", .vBool false),
    ("displayNodeNumbers", .vBool false),
    ("displayNodeDerivatives", .vInt 0),
    ("displayNodeDerivativeLabels", .vListStr (nodeDerivativeLabels.take 3)),
    ("displayNodeDerivativeVersion", .vInt 0),
    ("displayLines", .vBool true),
    ("displayLinesExterior", .vBool false),
    ("displayModelRadius", .vBool false),
    ("displaySurfaces", .vBool true),
    ("displaySurfacesExterior", .vBool true),
    ("displaySurfacesTranslucent", .vBool true),
    ("displaySurfacesWireframe", .vBool false),
    ("displayElementNumbers", .vBool false),
    ("displayElementAxes", .vBool false),
    ("displayAxes", .vBool true),
    ("displayMarkerPoints", .vBool false),
    ("modelCoordinatesField", .vStr "coordinates")]

/-- Translation of `ScaffoldCreatorModel.__init__` (the Zinc region is
created by the first `_generateMesh`; a default placeholder stands for
Python's initial `None`). -/
def initialState (env : Env) : CreatorState :=
  let scaffoldType := env.defaultScaffoldTypeId
  let scaffoldPackage := env.newScaffoldPackage scaffoldType
  { scaffoldPackages := [scaffoldPackage]
    scaffoldPackageOptionNames := [none]
    parameterSetName := (env.parameterSetNames scaffoldType).head?
    customScaffoldPackage := none
    unsavedNodeEdits := false
    settings := initialSettings scaffoldPackage
    deleteElementRanges := []
    region := default
    generationCount := 0 }

/-- Field-name filter of `_updateScaffoldEdits`: of 'coordinates' and
'inner coordinates', those defined in the region's fieldmodule. -/
def editFieldNames (region : Region) : List String :=
  ["coordinates", "inner coordinates"].filter fun n => region.fieldNames.contains n

/-- Effect of `_updateScaffoldEdits` on the edited package: serialise the
'meshEdits' group into its mesh edits when node edits are unsaved, then
`updateUserAnnotationGroups()`. -/
def updateScaffoldEditsPkg (env : Env) (region : Region) (unsaved : Bool)
    (p : SPkg) : SPkg :=
  let p1 :=
    if unsaved then
      p.setMeshEdits (some (env.exnodeString region "meshEdits" (editFieldNames region)))
    else p
  p1.setUserAnnGroups (env.updateUserAnnotationGroups region p1)

/-- Translation of `_updateScaffoldEdits`. -/
def updateScaffoldEdits (env : Env) (st : CreatorState) : CreatorState :=
  { st with
    scaffoldPackages :=
      modifyLast (updateScaffoldEditsPkg env st.region st.unsavedNodeEdits) st.scaffoldPackages
    unsavedNodeEdits := false }

/-- Translation of `_saveCustomScaffoldPackage` (`copy.deepcopy` is the
identity on values). -/
def saveCustomScaffoldPackage (env : Env) (st : CreatorState) : CreatorState :=
  let st1 := updateScaffoldEdits env st
  { st1 with customScaffoldPackage := some (topPkg st1) }

/-- Translation of `_useCustomScaffoldPackage` (the registered callback has
no model-visible effect). -/
def useCustomScaffoldPackage (env : Env) (st : CreatorState) : CreatorState :=
  if st.customScaffoldPackage = none ∨ st.parameterSetName ≠ some "Custom" then
    let st1 := saveCustomScaffoldPackage env st
    { st1 with parameterSetName := some "Custom" }
  else st

/-- Translation of `getOrCreateMeshEditsNodesetGroup`: create the managed
'meshEdits' group if absent and flag unsaved node edits. -/
def getOrCreateMeshEditsNodesetGroup (st : CreatorState) : CreatorState :=
  let region :=
    if st.region.meshEditsValid then st.region
    else { st.region with meshEditsValid := true, meshEditsManaged := true, meshEditsEmpty := true }
  { st with region := region, unsavedNodeEdits := true }

/-- Translation of `_clearMeshEdits`. -/
def clearMeshEdits (st : CreatorState) : CreatorState :=
  let region :=
    if st.region.meshEditsValid then { st.region with meshEditsManaged := false }
    else st.region
  { st with
    scaffoldPackages := modifyLast (fun p => p.setMeshEdits none) st.scaffoldPackages
    unsavedNodeEdits := false
    region := region }

/-- Type id of `self._scaffoldPackages[0]`. -/
def rootTypeId (st : CreatorState) : Nat :=
  (st.scaffoldPackages.headD default).typeId

/-- Type id of `self._scaffoldPackages[-1]` (`getEditScaffoldType`). -/
def topTypeId (st : CreatorState) : Nat :=
  (topPkg st).typeId

/-- Type id of `self._scaffoldPackages[-2]` (`getParentScaffoldType`). -/
def parentTypeId (st : CreatorState) : Nat :=
  (st.scaffoldPackages.dropLast.getLastD default).typeId

/-- Python's `self._scaffoldPackageOptionNames[-1]`, as the plain string it
is for every non-root entry. -/
def lastOptionName (st : CreatorState) : String :=
  (st.scaffoldPackageOptionNames.getLastD none).getD ""

/-- Translation of `editingRootScaffoldPackage`. -/
def editingRootScaffoldPackage (st : CreatorState) : Bool :=
  st.scaffoldPackages.length == 1

/-- Translation of `getEditScaffoldParameterSetNames`. -/
def getEditScaffoldParameterSetNames (env : Env) (st : CreatorState) : List String :=
  if editingRootScaffoldPackage st then
    env.parameterSetNames (rootTypeId st)
  else
    env.optionParameterSetNames (parentTypeId st) (lastOptionName st) (topTypeId st)

/-- Translation of `getDefaultScaffoldPackageForParameterSetName`. -/
def getDefaultScaffoldPackageForParameterSetName (env : Env) (st : CreatorState)
    (parameterSetName : String) : SPkg :=
  if editingRootScaffoldPackage st then
    env.scaffoldPackageWithSettings (rootTypeId st)
      (env.defaultOptions (rootTypeId st) parameterSetName)
  else
    env.optionScaffoldPackage (parentTypeId st) (lastOptionName st) (topTypeId st)
      parameterSetName

/-- Python truthiness test `not self._parameterSetName` on an optional
string: `None` and the empty string are falsy. -/
def pyFalsy : Option String → Bool
  | none => true
  | some s => s == ""

/-- Translation of `_checkCustomParameterSet`: clear the custom package and
the unsaved-edits flag, search the parameter-set names in reverse for one
whose default package equals the edited package, else fall back to
`_useCustomScaffoldPackage`. -/
def checkCustomParameterSet (env : Env) (st : CreatorState) : CreatorState :=
  let st0 := { st with
    customScaffoldPackage := none
    unsavedNodeEdits := false
    parameterSetName := none }
  let scaffoldPackage := topPkg st0
  let found := (getEditScaffoldParameterSetNames env st0).reverse.find? fun n =>
    getDefaultScaffoldPackageForParameterSetName env st0 n == scaffoldPackage
  let st1 := { st0 with parameterSetName := found }
  if pyFalsy found then useCustomScaffoldPackage env st1 else st1

/-- Translation of `_generateMesh` (regeneration of the child region from
the edited package; graphics are outside the model). -/
def generateMesh (env : Env) (st : CreatorState) : CreatorState :=
  { st with
    region := env.generate (topPkg st) st.deleteElementRanges
    generationCount := st.generationCount + 1 }

/-- Translation of `editScaffoldPackageOption(optionName)`; the failed
`assert isinstance(scaffoldPackage, ScaffoldPackage)` is an error. -/
def editScaffoldPackageOption (env : Env) (st : CreatorState)
    (optionName : String) : Except String CreatorState :=
  match (topPkg st).settings.find? optionName with
  | some (.vPackage scaffoldPackage) =>
    let st1 := clearMeshEdits st
    let st2 := { st1 with
      scaffoldPackages := st1.scaffoldPackages ++ [scaffoldPackage]
      scaffoldPackageOptionNames := st1.scaffoldPackageOptionNames ++ [some optionName] }
    .ok (generateMesh env (checkCustomParameterSet env st2))
  | _ => .error "Option is not a ScaffoldPackage"

/-- Translation of `endEditScaffoldPackageOption`; the failed
`assert len(self._scaffoldPackages) > 1` is an error. -/
def endEditScaffoldPackageOption (env : Env) (st : CreatorState) :
    Except String CreatorState :=
  if st.scaffoldPackages.length ≤ 1 then
    .error "Attempt to end editing root ScaffoldPackage"
  else
    let st1 := updateScaffoldEdits env st
    let optionName := lastOptionName st1
    let scaffoldPackage := topPkg st1
    let st2 := { st1 with
      scaffoldPackages := st1.scaffoldPackages.dropLast
      scaffoldPackageOptionNames := st1.scaffoldPackageOptionNames.dropLast }
    let st3 := { st2 with
      scaffoldPackages := modifyLast
        (fun p => p.setSettingsDict
          (p.settings.set optionName (.vPackage scaffoldPackage)))
        st2.scaffoldPackages }
    .ok (generateMesh env (checkCustomParameterSet env st3))

/-- Translation of `setParameterSetName` (selecting 'Custom' with no saved
custom package stores Python `None`; the model substitutes a default
package, an off-domain case never reached through the GUI). -/
def setParameterSetName (env : Env) (st : CreatorState)
    (parameterSetName : String) : CreatorState :=
  let st1 :=
    if st.parameterSetName = some "Custom" then saveCustomScaffoldPackage env st
    else st
  let newPkg :=
    if parameterSetName = "Custom" then st1.customScaffoldPackage.getD default
    else getDefaultScaffoldPackageForParameterSetName env st1 parameterSetName
  let st2 := { st1 with
    scaffoldPackages := modifyLast (fun _ => newPkg) st1.scaffoldPackages }
  let st3 :=
    if st2.scaffoldPackages.length = 1 then
      { st2 with settings := st2.settings.set "scaffoldPackage" (.vPackage (topPkg st2)) }
    else st2
  generateMesh env
    { st3 with parameterSetName := some parameterSetName, unsavedNodeEdits := false }

/-- Conversion block of `setScaffoldOption`: convert the value text to the
type of the old value.  `.ok none` is the caught-ValueError path
(`except ValueError: return`); `.error` is an uncaught IndexError (empty
list option) or AssertionError (unimplemented option type). -/
def convertScaffoldOptionValue (env : Env) (oldValue : OptionValue)
    (value : String) : Except String (Option OptionValue) :=
  match oldValue with
  | .vBool _ => .ok (some (.vBool (value != "")))
  | .vInt _ =>
    match env.pyInt value with
    | some n => .ok (some (.vInt n))
    | none => .ok none
  | .vFloat _ =>
    match env.pyFloat value with
    | some q => .ok (some (.vFloat q))
    | none => .ok none
  | .vStr _ => .ok (some (.vStr value))
  | .vListFloat [] => .error "IndexError"
  | .vListFloat (_ :: _) => .ok (some (.vListFloat (parseListFloat env.pyFloat value ',')))
  | .vListInt [] => .error "IndexError"
  | .vListInt (_ :: _) => .ok (some (.vListInt (parseListInt env.pyInt value ',')))
  | .vListStr _ => .error "Unimplemented type in list for scaffold option"
  | _ => .error "Unimplemented type in scaffold option"

/-- Translation of `setScaffoldOption(key, value)`: returns the new state
and the Python return value (`none` for the ValueError path, otherwise the
dependent-changes flag of `checkOptions`). -/
def setScaffoldOption (env : Env) (st : CreatorState) (key value : String) :
    Except String (CreatorState × Option Bool) :=
  match (topPkg st).settings.find? key with
  | none => .error "KeyError"
  | some oldValue =>
    match convertScaffoldOptionValue env oldValue value with
    | .error e => .error e
    | .ok none => .ok (st, none)
    | .ok (some newValue) =>
      let settings1 := (topPkg st).settings.set key newValue
      let result := env.checkOptions (topTypeId st) settings1
      let st1 := { st with
        scaffoldPackages :=
          modifyLast (fun p => p.setSettingsDict result.1) st.scaffoldPackages }
      match result.1.find? key with
      | none => .error "KeyError"
      | some finalValue =>
        if finalValue ≠ oldValue then
          .ok (generateMesh env (useCustomScaffoldPackage env (clearMeshEdits st1)),
            some result.2)
        else
          .ok (st1, some result.2)

/-- Translation of `performInteractiveFunction(functionName, functionOptions)`:
returns the new state and the settings-changed flag (`False` when no
function of that name exists). -/
def performInteractiveFunction (env : Env) (st : CreatorState)
    (functionName : String) (functionOptions : SettingsDict) :
    CreatorState × Bool :=
  match env.interactiveFn (topTypeId st) functionName with
  | none => (st, false)
  | some f =>
    let r := f st.region (topPkg st).settings functionOptions
    let st1 := { st with
      region := r.1
      scaffoldPackages :=
        modifyLast (fun p => p.setSettingsDict r.2.1) st.scaffoldPackages }
    let settingsChanged := r.2.2.1
    let nodesChanged := r.2.2.2
    let st2 :=
      if nodesChanged then { st1 with unsavedNodeEdits := true }
      else if !st1.region.meshEditsValid || st1.region.meshEditsEmpty then
        clearMeshEdits st1
      else st1
    (checkCustomParameterSet env (updateScaffoldEdits env st2), settingsChanged)

/-- Translation of `applyTransformation(editCoordinatesField)`. -/
def applyTransformation (env : Env) (st : CreatorState) : CreatorState :=
  let scaffoldPackage := topPkg st
  if env.applyTransformationChanged scaffoldPackage then
    let st1 := { st with
      region := env.applyTransformationRegion scaffoldPackage st.region
      scaffoldPackages := modifyLast
        (fun p => ((p.setRotation [0, 0, 0]).setScale [1, 1, 1]).setTranslation [0, 0, 0])
        st.scaffoldPackages }
    let st2 := getOrCreateMeshEditsNodesetGroup st1
    let st3 := { st2 with region := env.markAllNodesEdited st2.region }
    checkCustomParameterSet env (updateScaffoldEdits env st3)
  else st

/-- Translation of `_parseDeleteElementsRangesText`: new state and the
changed flag. -/
def parseDeleteElementsRangesText (env : Env) (st : CreatorState)
    (elementRangesTextIn : String) : CreatorState × Bool :=
  let elementRanges := env.rangesFromString elementRangesTextIn
  let changed := st.deleteElementRanges != elementRanges
  ({ st with
      deleteElementRanges := elementRanges
      settings := st.settings.set "deleteElementRanges"
        (.vStr (env.rangesToString elementRanges)) },
    changed)

/-- Translation of `setDeleteElementsRangesText`. -/
def setDeleteElementsRangesText (env : Env) (st : CreatorState)
    (elementRangesTextIn : String) : CreatorState :=
  let r := parseDeleteElementsRangesText env st elementRangesTextIn
  if r.2 then generateMesh env (updateScaffoldEdits env r.1) else r.1

/-- Translation of `_setVisibility(graphicsName, show)`; the Zinc graphics
visibility flag is outside the model. -/
def setVisibility (st : CreatorState) (graphicsName : String) (shw : Bool) :
    CreatorState :=
  { st with settings := st.settings.set graphicsName (.vBool shw) }

/-- Translation of `_getVisibility(graphicsName)` (`none` models the
KeyError on an unknown name). -/
def getVisibility (st : CreatorState) (graphicsName : String) :
    Option OptionValue :=
  st.settings.find? graphicsName

/-- Translation of `setDisplayAxes`. -/
def setDisplayAxes (st : CreatorState) (shw : Bool) : CreatorState :=
  setVisibility st "displayAxes" shw

/-- Translation of `isDisplayAxes`. -/
def isDisplayAxes (st : CreatorState) : Option OptionValue :=
  getVisibility st "displayAxes"

/-- Translation of `setDisplayNodePoints`. -/
def setDisplayNodePoints (st : CreatorState) (shw : Bool) : CreatorState :=
  setVisibility st "displayNodePoints" shw

/-- Translation of `isDisplayNodePoints`. -/
def isDisplayNodePoints (st : CreatorState) : Option OptionValue :=
  getVisibility st "displayNodePoints"

/-- Translation of `setDisplayNodeNumbers`. -/
def setDisplayNodeNumbers (st : CreatorState) (shw : Bool) : CreatorState :=
  setVisibility st "displayNodeNumbers" shw

/-- Translation of `isDisplayNodeNumbers`. -/
def isDisplayNodeNumbers (st : CreatorState) : Option OptionValue :=
  getVisibility st "displayNodeNumbers"

/-- Translation of `setDisplayElementNumbers`. -/
def setDisplayElementNumbers (st : CreatorState) (shw : Bool) : CreatorState :=
  setVisibility st "displayElementNumbers" shw

/-- Translation of `isDisplayElementNumbers`. -/
def isDisplayElementNumbers (st : CreatorState) : Option OptionValue :=
  getVisibility st "displayElementNumbers"

/-- Translation of `setDisplayLines`. -/
def setDisplayLines (st : CreatorState) (shw : Bool) : CreatorState :=
  setVisibility st "displayLines" shw

/-- Translation of `isDisplayLines`. -/
def isDisplayLines (st : CreatorState) : Option OptionValue :=
  getVisibility st "displayLines"

/-- Translation of `setDisplaySurfaces`. -/
def setDisplaySurfaces (st : CreatorState) (shw : Bool) : CreatorState :=
  setVisibility st "displaySurfaces" shw

/-- Translation of `isDisplaySurfaces`. -/
def isDisplaySurfaces (st : CreatorState) : Option OptionValue :=
  getVisibility st "displaySurfaces"

/-- Translation of `setDisplayElementAxes`. -/
def setDisplayElementAxes (st : CreatorState) (shw : Bool) : CreatorState :=
  setVisibility st "displayElementAxes" shw

/-- Translation of `isDisplayElementAxes`. -/
def isDisplayElementAxes (st : CreatorState) : Option OptionValue :=
  getVisibility st "displayElementAxes"

/-- Translation of `setDisplayMarkerPoints`. -/
def setDisplayMarkerPoints (st : CreatorState) (shw : Bool) : CreatorState :=
  setVisibility st "displayMarkerPoints" shw

/-- Translation of `isDisplayMarkerPoints`. -/
def isDisplayMarkerPoints (st : CreatorState) : Option OptionValue :=
  getVisibility st "displayMarkerPoints"

/-- Translation of `_getScaffoldTypeByName`. -/
def getScaffoldTypeByName (env : Env) (name : String) : Option Nat :=
  (env.allScaffoldTypes.find? fun t => t.2 == name).map fun t => t.1

/-- Migration block at the top of `setSettings`: reuse the loaded
'scaffoldPackage', or build one from the obsolete 'meshTypeName' /
'meshTypeOptions' entries and delete those two keys.  Errors model the
KeyError on a missing legacy key and the downstream failure on an unknown
scaffold type name. -/
def migrateScaffoldPackage (env : Env) (settingsIn : SettingsDict) :
    Except String (SettingsDict × SPkg) :=
  match settingsIn.find? "scaffoldPackage" with
  | some (.vPackage p) => .ok (settingsIn, p)
  | _ =>
    match settingsIn.find? "meshTypeName" with
    | some (.vStr name) =>
      match getScaffoldTypeByName env name with
      | some scaffoldTypeId =>
        let s1 := settingsIn.erase "meshTypeName"
        match s1.find? "meshTypeOptions" with
        | some (.vDict scaffoldSettings) =>
          let s2 := s1.erase "meshTypeOptions"
          let scaffoldPackage :=
            env.scaffoldPackageWithSettings scaffoldTypeId scaffoldSettings
          .ok (s2.set "scaffoldPackage" (.vPackage scaffoldPackage), scaffoldPackage)
        | _ => .error "KeyError meshTypeOptions"
      | none => .error "scaffold type name not found"
    | _ => .error "KeyError meshTypeName"

/-- Translation of `ScaffoldCreatorModel.setSettings(settings)` (loading
settings from file), including the three migrations: obsolete
meshTypeName/meshTypeOptions to a scaffold package, boolean
displayNodeDerivatives to tri-state, and the old 'scale' text into the
scaffold package's scale (the package object mutated in place is the one
stored under 'scaffoldPackage' and in the new stack). -/
def setSettings (env : Env) (st : CreatorState) (settingsIn : SettingsDict) :
    Except String CreatorState :=
  match migrateScaffoldPackage env settingsIn with
  | .error e => .error e
  | .ok (settings1, scaffoldPackage) =>
    match settings1.find? "displayNodeDerivatives" with
    | none => .error "KeyError displayNodeDerivatives"
    | some v =>
      let settings2 :=
        match v with
        | .vBool b => settings1.set "displayNodeDerivatives" (.vInt (if b then 2 else 0))
        | _ => settings1
      let merged := st.settings.update settings2
      match merged.find? "deleteElementRanges" with
      | some (.vStr rangesText) =>
        let pr := parseDeleteElementsRangesText env { st with settings := merged } rangesText
        let stp := pr.1
        let r3 : SettingsDict × SPkg :=
          match stp.settings.find? "scale" with
          | some (.vStr oldScaleText) =>
            if oldScaleText ≠ "" then
              match parseVector3 env.pyFloat oldScaleText '*' 1 with
              | some scalev =>
                let p2 := scaffoldPackage.setScale scalev
                ((stp.settings.set "scaffoldPackage" (.vPackage p2)).erase "scale", p2)
              | none => (stp.settings, scaffoldPackage)
            else (stp.settings, scaffoldPackage)
          | _ => (stp.settings, scaffoldPackage)
        let stFinal := { stp with
          settings := r3.1
          scaffoldPackages := [r3.2]
          scaffoldPackageOptionNames := [none] }
        .ok (generateMesh env (checkCustomParameterSet env stFinal))
      | _ => .error "KeyError deleteElementRanges"

/-- State of `MasterModel` needed by claim C6: the creator model, the
segmentation data model's settings dict, and the master settings dict
`self._settings`. -/
structure MasterState where
  creator : CreatorState
  segmentationSettings : SettingsDict
  masterSettings : SettingsDict
deriving DecidableEq

/-- Translation of `MasterModel._getSettings`: the master dict with
current sub-model settings filled in. -/
def masterGetSettings (m : MasterState) : SettingsDict :=
  (m.masterSettings.set "scaffold_settings" (.vDict m.creator.settings)).set
    "segmentation_data_settings" (.vDict m.segmentationSettings)

/-- Translation of the `try` body of `MasterModel.loadSettings`: read and
decode the settings file and apply the two on-disk format migrations.
`none` models any exception caught by the bare `except` (missing file,
unreadable or undecodable contents, or a missing key during migration,
which all occur before the sub-models are touched). -/
def loadSettingsAttempt (env : Env) (m : MasterState)
    (fileContents : Option String) : Option SettingsDict :=
  match fileContents with
  | none => none
  | some contents =>
    match env.parseSettingsJson contents with
    | none => none
    | some savedSettings =>
      let settings := m.masterSettings.update savedSettings
      let settings1? : Option SettingsDict :=
        match settings.find? "generator_settings" with
        | some gs =>
          match settings.find? "segmentation_data_settings" with
          | some ss =>
            some (.ofList [("scaffold_settings", gs), ("segmentation_data_settings", ss)])
          | none => none
        | none => some settings
      match settings1? with
      | none => none
      | some settings1 =>
        if settings1.contains "scaffold_settings" then some settings1
        else
          some (.ofList [("scaffold_settings", .vDict settings1),
            ("segmentation_data_settings", .vDict .nil)])

/-- Translation of `SegmentationDataModel.setSettings` (a dict update; the
graphics regeneration is outside the model). -/
def segSetSettings (seg : SettingsDict) (incoming : SettingsDict) : SettingsDict :=
  seg.update incoming

/-- Translation of `MasterModel.loadSettings`: on any failure of the `try`
body the defaults from `_getSettings` are used; then the creator and
segmentation-data sub-models are configured from the resulting dict. -/
def loadSettings (env : Env) (m : MasterState) (fileContents : Option String) :
    Except String MasterState :=
  let settings := (loadSettingsAttempt env m fileContents).getD (masterGetSettings m)
  match settings.find? "scaffold_settings" with
  | some (.vDict scaffoldSettings) =>
    match setSettings env m.creator scaffoldSettings with
    | .error e => .error e
    | .ok creator1 =>
      match settings.find? "segmentation_data_settings" with
      | some (.vDict segIn) =>
        .ok { m with
          creator := creator1
          segmentationSettings := segSetSettings m.segmentationSettings segIn }
      | _ => .error "segmentation data settings not a dict"
  | _ => .error "scaffold settings not a dict"

/-- JSON-representable value of a step-config entry (`step.py` config
values are a string identifier and a boolean flag). -/
inductive JVal where
  | jStr (s : String)
  | jBool (b : Bool)
  | jNum (n : Int)
  | jNull
deriving DecidableEq

/-- Lookup in a step-config dict. -/
def jfind? : List (String × JVal) → String → Option JVal
  | [], _ => none
  | (k0, v0) :: rest, k => if k0 = k then some v0 else jfind? rest k

/-- Python `d[k] = v` on a step-config dict. -/
def jset : List (String × JVal) → String → JVal → List (String × JVal)
  | [], k, v => [(k, v)]
  | (k0, v0) :: rest, k, v =>
    if k0 = k then (k0, v) :: rest else (k0, v0) :: jset rest k v

/-- Python `d.update(other)` on a step-config dict. -/
def jupdate (d : List (String × JVal)) : List (String × JVal) → List (String × JVal)
  | [] => d
  | (k, v) :: rest => jupdate (jset d k v) rest

/-- Insert a binding into a key-sorted list of bindings. -/
def insertSortedByKey (p : String × JVal) :
    List (String × JVal) → List (String × JVal)
  | [] => [p]
  | q :: rest =>
    if p.1 ≤ q.1 then p :: q :: rest else q :: insertSortedByKey p rest

/-- Sort bindings by key (the `sort_keys=True` of `json.dumps`). -/
def sortByKey : List (String × JVal) → List (String × JVal)
  | [] => []
  | p :: rest => insertSortedByKey p (sortByKey rest)

/-- Translation of `ScaffoldCreator.serialize`
(`json.dumps(self._config, default=..., sort_keys=True, indent=4)`), at the
JSON-AST level: the emitted object holds exactly the config's bindings in
sorted key order.  The byte-level JSON encoding and decoding are Python's
stdlib `json`, external to this repository and modelled as faithful
transport of the AST. -/
def stepSerialize (config : List (String × JVal)) : List (String × JVal) :=
  sortByKey config

/-- Translation of `ScaffoldCreator.deserialize`
(`self._config.update(json.loads(string))`), at the JSON-AST level. -/
def stepDeserialize (config parsed : List (String × JVal)) :
    List (String × JVal) :=
  jupdate config parsed

/-- Initial `self._config` of `ScaffoldCreator.__init__`. -/
def defaultStepConfig : List (String × JVal) :=
  [("identifier", .jStr ""), ("AutoDone", .jBool false)]

instance {e a : Type} [DecidableEq e] [DecidableEq a] : DecidableEq (Except e a) :=
  fun x y =>
  match x, y with
  | .ok u, .ok v =>
    if h : u = v then .isTrue (by rw [h]) else .isFalse (by intro hh; cases hh; exact h rfl)
  | .error u, .error v =>
    if h : u = v then .isTrue (by rw [h]) else .isFalse (by intro hh; cases hh; exact h rfl)
  | .ok _, .error _ => .isFalse (by intro hh; cases hh)
  | .error _, .ok _ => .isFalse (by intro hh; cases hh)

/-- Stack invariant of `ScaffoldCreatorModel`: the package stack and the
option-name stack have equal length, at least one entry, and the root entry
of the option-name stack is Python `None`. -/
def StackInv (st : CreatorState) : Prop :=
  st.scaffoldPackages.length = st.scaffoldPackageOptionNames.length ∧
  1 ≤ st.scaffoldPackages.length ∧
  st.scaffoldPackageOptionNames.head? = some none

/-- Concrete environment used by witnesses: two scaffold types, the root
type's default package holding a nested package under option 'child'. -/
def envT : Env where
  allScaffoldTypes := [(0, "root"), (1, "childType")]
  defaultScaffoldTypeId := 0
  newScaffoldPackage := fun t =>
    if t = 0 then
      .mk 0 (.cons "child" (.vPackage (.mk 1 .nil none [] [] [] 0)) .nil) none [] [] [] 0
    else .mk 1 .nil none [] [] [] 0
  scaffoldPackageWithSettings := fun t s => .mk t s none [] [] [] 0
  parameterSetNames := fun _ => ["Default"]
  defaultOptions := fun t _ =>
    if t = 0 then .cons "child" (.vPackage (.mk 1 .nil none [] [] [] 0)) .nil else .nil
  optionParameterSetNames := fun _ _ _ => ["Default"]
  optionScaffoldPackage := fun _ _ t _ => .mk t .nil none [] [] [] 0
  checkOptions := fun _ s => (s, false)
  updateUserAnnotationGroups := fun _ p => p.userAnnGroups
  exnodeString := fun _ _ _ => "EX"
  generate := fun _ _ => default
  interactiveFn := fun _ _ => none
  applyTransformationChanged := fun _ => false
  applyTransformationRegion := fun _ r => r
  markAllNodesEdited := fun r => r
  rangesFromString := fun _ => []
  rangesToString := fun _ => ""
  pyFloat := fun s => if s = "2" then some 2 else none
  pyInt := fun s => if s = "5" then some 5 else none
  parseSettingsJson := fun _ => none

/-- Concrete creator state used by witnesses: root scaffold with empty
settings (its package matches no predefined default of `envT`). -/
def stT : CreatorState where
  scaffoldPackages := [.mk 0 .nil none [] [] [] 0]
  scaffoldPackageOptionNames := [none]
  parameterSetName := none
  customScaffoldPackage := none
  unsavedNodeEdits := false
  settings := .nil
  deleteElementRanges := []
  region := default
  generationCount := 0

/-- Concrete loaded-settings dict used by the C9 counterexample. -/
def dT : SettingsDict :=
  .ofList [("scaffoldPackage", .vPackage (.mk 1 .nil none [] [] [] 0)),
    ("displayNodeDerivatives", .vInt 0)]

/-- Concrete creator state whose root scaffold has an integer option 'n'. -/
def stT3 : CreatorState :=
  { stT with scaffoldPackages := [.mk 0 (.cons "n" (.vInt 7) .nil) none [] [] [] 0] }

/-- Concrete master-model state used by the C6 witness. -/
def mT : MasterState where
  creator := initialState envT
  segmentationSettings := .nil
  masterSettings := .ofList [("segmentation_data_settings", .vDict .nil)]

/-- Concrete legacy settings dict used by the C5 witness. -/
def dC5 : SettingsDict :=
  .ofList [
    ("meshTypeName", .vStr "root"),
    ("meshTypeOptions", .vDict .nil),
    ("displayNodeDerivatives", .vBool true),
    ("deleteElementRanges", .vStr ""),
    ("scale", .vStr "2*2*2")]

/-- Concrete region used by witnesses: both coordinate fields defined, a
valid non-empty 'meshEdits' group. -/
def rgT : Region where
  fieldNames := ["coordinates", "inner coordinates"]
  meshEditsValid := true
  meshEditsManaged := true
  meshEditsEmpty := false
  blob := 0

/-- Concrete creator state with unsaved node edits in region `rgT`. -/
def stT2 : CreatorState :=
  { stT with region := rgT, unsavedNodeEdits := true }

/-!  Theorems: general lemmas about the embedded dict, split and stack
operations, followed by the claim theorems. -/

namespace SettingsDict

/-- Structural induction principle for `SettingsDict` (the mutual-block
recursor is awkward for the `induction` tactic). -/
@[induction_eliminator]
theorem inductionOn {motive : SettingsDict → Prop} (h1 : motive .nil)
    (h2 : ∀ k v rest, motive rest → motive (.cons k v rest)) :
    ∀ d, motive d
  | .nil => h1
  | .cons k v rest => h2 k v rest (inductionOn h1 h2 rest)

theorem find?_set_self (d : SettingsDict) (k : String) (v : OptionValue) :
    (d.set k v).find? k = some v := by
  induction d with
  | h1 => simp [set, find?]
  | h2 k0 v0 rest ih =>
    by_cases h : k0 = k <;> simp [set, find?, h, ih]

theorem find?_set_ne (d : SettingsDict) (k k' : String) (v : OptionValue)
    (h : k ≠ k') : (d.set k v).find? k' = d.find? k' := by
  induction d with
  | h1 => simp [set, find?, h]
  | h2 k0 v0 rest ih =>
    by_cases h0 : k0 = k
    · subst h0; simp [set, find?, h]
    · simp only [set, if_neg h0]
      by_cases h1 : k0 = k' <;> simp [find?, h1, ih]

theorem find?_erase_self (d : SettingsDict) (k : String)
    (hnd : d.keys.Nodup) : (d.erase k).find? k = none := by
  induction d with
  | h1 => simp [erase, find?]
  | h2 k0 v0 rest ih =>
    simp only [keys, List.nodup_cons] at hnd
    by_cases h : k0 = k
    · subst h
      simp only [erase, if_pos rfl]
      cases hfind : rest.find? k0 with
      | none => exact hfind
      | some v =>
        exfalso
        apply hnd.1
        clear ih hnd
        induction rest with
        | h1 => simp [find?] at hfind
        | h2 k1 v1 rest1 ih1 =>
          simp only [find?] at hfind
          by_cases h1 : k1 = k0
          · subst h1; simp [keys]
          · simp only [if_neg h1] at hfind
            simp [keys, ih1 hfind]
    · simp [erase, h, find?, ih hnd.2]

theorem find?_erase_ne (d : SettingsDict) (k k' : String) (h : k ≠ k') :
    (d.erase k).find? k' = d.find? k' := by
  induction d with
  | h1 => simp [erase]
  | h2 k0 v0 rest ih =>
    by_cases h0 : k0 = k
    · subst h0; simp [erase, find?, h]
    · simp only [erase, if_neg h0]
      by_cases h1 : k0 = k' <;> simp [find?, h1, ih]

theorem find?_update_of_not_mem (d e : SettingsDict) (k : String)
    (h : k ∉ e.keys) : (d.update e).find? k = d.find? k := by
  induction e generalizing d with
  | h1 => simp [update]
  | h2 k0 v0 rest ih =>
    simp only [keys, List.mem_cons, not_or] at h
    simp only [update]
    rw [ih _ h.2, find?_set_ne _ _ _ _ (fun he => h.1 he.symm)]

theorem find?_update_of_find? (d e : SettingsDict) (k : String)
    (v : OptionValue) (hnd : e.keys.Nodup) (h : e.find? k = some v) :
    (d.update e).find? k = some v := by
  induction e generalizing d with
  | h1 => simp [find?] at h
  | h2 k0 v0 rest ih =>
    simp only [keys, List.nodup_cons] at hnd
    simp only [find?] at h
    by_cases h0 : k0 = k
    · subst h0
      rw [if_pos rfl] at h
      cases h
      simp only [update]
      rw [find?_update_of_not_mem _ _ _ hnd.1, find?_set_self]
    · simp only [if_neg h0] at h
      simp only [update]
      exact ih _ hnd.2 h


theorem mem_keys_set (d : SettingsDict) (k a : String) (v : OptionValue) :
    a ∈ (d.set k v).keys ↔ a ∈ d.keys ∨ a = k := by
  induction d with
  | h1 => simp [set, keys]
  | h2 k0 v0 rest ih =>
    by_cases hk : k0 = k
    · subst hk
      simp [set, keys]
      tauto
    · simp [set, keys, hk, ih]
      tauto

theorem mem_keys_erase (d : SettingsDict) (k a : String) :
    a ∈ (d.erase k).keys → a ∈ d.keys := by
  induction d with
  | h1 => simp [erase, keys]
  | h2 k0 v0 rest ih =>
    by_cases hk : k0 = k
    · subst hk
      simp [erase, keys]
      tauto
    · simp only [erase, if_neg hk, keys, List.mem_cons]
      intro h
      rcases h with h | h
      · exact Or.inl h
      · exact Or.inr (ih h)

theorem keys_set_nodup (d : SettingsDict) (k : String) (v : OptionValue)
    (h : d.keys.Nodup) : (d.set k v).keys.Nodup := by
  induction d with
  | h1 => simp [set, keys]
  | h2 k0 v0 rest ih =>
    simp only [keys, List.nodup_cons] at h
    by_cases hk : k0 = k
    · subst hk
      simp [set, keys, List.nodup_cons, h.1, h.2]
    · simp only [set, if_neg hk, keys, List.nodup_cons]
      refine ⟨fun hmem => ?_, ih h.2⟩
      rcases (mem_keys_set rest k k0 v).mp hmem with hm | hm
      · exact h.1 hm
      · exact hk hm

theorem keys_erase_nodup (d : SettingsDict) (k : String)
    (h : d.keys.Nodup) : (d.erase k).keys.Nodup := by
  induction d with
  | h1 => simp [erase, keys]
  | h2 k0 v0 rest ih =>
    simp only [keys, List.nodup_cons] at h
    by_cases hk : k0 = k
    · subst hk
      simp [erase, h.2]
    · simp only [erase, if_neg hk, keys, List.nodup_cons]
      exact ⟨fun hmem => h.1 (mem_keys_erase rest k k0 hmem), ih h.2⟩

theorem keys_update_nodup (d e : SettingsDict) (h : d.keys.Nodup) :
    (d.update e).keys.Nodup := by
  induction e generalizing d with
  | h1 => exact h
  | h2 k v rest ih => exact ih _ (keys_set_nodup _ _ _ h)

theorem find?_eq_none_iff (d : SettingsDict) (k : String) :
    d.find? k = none ↔ k ∉ d.keys := by
  induction d with
  | h1 => simp [find?, keys]
  | h2 k0 v0 rest ih =>
    by_cases hk : k0 = k
    · subst hk
      simp [find?, keys]
    · simp [find?, keys, hk, ih]
      tauto

end SettingsDict

theorem splitChars_ne_nil (delimiter : Char) (l : List Char) :
    splitChars delimiter l ≠ [] := by
  induction l with
  | nil => simp [splitChars]
  | cons c rest ih =>
    simp only [splitChars]
    by_cases h : c = delimiter
    · simp [h]
    · simp only [if_neg h]
      cases splitChars delimiter rest <;> simp

theorem modifyLast_length (f : SPkg → SPkg) (l : List SPkg) :
    (modifyLast f l).length = l.length := by
  induction l with
  | nil => rfl
  | cons p rest ih =>
    cases rest with
    | nil => rfl
    | cons q rest' => simpa [modifyLast] using ih

theorem modifyLast_concat (f : SPkg → SPkg) (l : List SPkg) (p : SPkg) :
    modifyLast f (l ++ [p]) = l ++ [f p] := by
  induction l with
  | nil => rfl
  | cons a rest ih =>
    cases rest with
    | nil => rfl
    | cons b rest' => simpa [modifyLast] using ih

theorem getLast?_modifyLast (f : SPkg → SPkg) (l : List SPkg) :
    (modifyLast f l).getLast? = l.getLast?.map f := by
  induction l with
  | nil => rfl
  | cons a rest ih =>
    cases rest with
    | nil => simp [modifyLast]
    | cons b rest' =>
      rw [show modifyLast f (a :: b :: rest') = a :: modifyLast f (b :: rest') from rfl]
      obtain ⟨c, cs, hc⟩ : ∃ c cs, modifyLast f (b :: rest') = c :: cs := by
        cases rest' <;> exact ⟨_, _, rfl⟩
      rw [hc, List.getLast?_cons_cons, ← hc, ih, List.getLast?_cons_cons]

theorem dropLast_modifyLast (f : SPkg → SPkg) (l : List SPkg) :
    (modifyLast f l).dropLast = l.dropLast := by
  induction l with
  | nil => rfl
  | cons a rest ih =>
    cases rest with
    | nil => rfl
    | cons b rest' =>
      rw [show modifyLast f (a :: b :: rest') = a :: modifyLast f (b :: rest') from rfl]
      obtain ⟨c, cs, hc⟩ : ∃ c cs, modifyLast f (b :: rest') = c :: cs := by
        cases rest' <;> exact ⟨_, _, rfl⟩
      rw [hc, List.dropLast_cons₂, ← hc, ih, List.dropLast_cons₂]

theorem getLastD_of_ne_nil {v : List Rat} (h : v ≠ []) (d d' : Rat) :
    v.getLastD d = v.getLastD d' := by
  cases v with
  | nil => exact absurd rfl h
  | cons a as => simp [List.getLastD_eq_getLast?, List.getLast?_cons]

theorem appendRepeatLast_eq (n : Nat) :
    ∀ v : List Rat, v ≠ [] →
      appendRepeatLast v n = some (v ++ List.replicate n (v.getLastD 0)) := by
  induction n with
  | zero => intro v hv; simp [appendRepeatLast]
  | succ n ih =>
    intro v hv
    match v, hv with
    | a :: as, _ =>
      show appendRepeatLast ((a :: as) ++ [(a :: as).getLastD 0]) n = _
      rw [ih _ (by simp)]
      rw [List.getLastD_concat]
      rw [List.append_assoc]
      rw [show ([(a :: as).getLastD 0] ++ List.replicate n ((a :: as).getLastD 0) =
        List.replicate (n + 1) ((a :: as).getLastD 0)) from by
          simp [List.replicate_succ]]

/-- Characterisation of `parseVector3`: it always succeeds, with the parsed
components truncated to three or padded to three by repeating the last. -/
theorem parseVector3_eq (pyFloat : String → Option Rat) (vectorText : String)
    (delimiter : Char) (defaultValue : Rat) :
    parseVector3 pyFloat vectorText delimiter defaultValue =
      some (((splitChars delimiter vectorText.data).map fun t =>
          (pyFloat (String.mk t)).getD defaultValue).take 3 ++
        List.replicate
          (3 - ((splitChars delimiter vectorText.data).map fun t =>
            (pyFloat (String.mk t)).getD defaultValue).length)
          (((splitChars delimiter vectorText.data).map fun t =>
            (pyFloat (String.mk t)).getD defaultValue).getLastD defaultValue)) := by
  have hmap : ((splitChars delimiter vectorText.data).map fun valueText =>
      match pyFloat (String.mk valueText) with
      | some v => v
      | none => defaultValue) =
      (splitChars delimiter vectorText.data).map fun t =>
        (pyFloat (String.mk t)).getD defaultValue := by
    apply List.map_congr_left
    intro t _
    cases pyFloat (String.mk t) <;> rfl
  have hne : ((splitChars delimiter vectorText.data).map fun t =>
      (pyFloat (String.mk t)).getD defaultValue) ≠ [] := by
    simp [splitChars_ne_nil]
  rw [parseVector3, hmap]
  by_cases h3 : 3 < ((splitChars delimiter vectorText.data).map fun t =>
      (pyFloat (String.mk t)).getD defaultValue).length
  · rw [if_pos h3]
    rw [show 3 - ((splitChars delimiter vectorText.data).map fun t =>
        (pyFloat (String.mk t)).getD defaultValue).length = 0 from by omega]
    simp
  · rw [if_neg h3]
    rw [appendRepeatLast_eq _ _ hne]
    rw [List.take_of_length_le (by omega)]
    rw [getLastD_of_ne_nil hne 0 defaultValue]

/-- C10: for every input string (and every behaviour of the external
`float` conversion), `parseVector3` returns, without raising, a list of
exactly 3 values: each token failing float conversion is replaced by the
default value, components beyond the third are discarded, and with fewer
than 3 components the last one is repeated to fill the list. -/
theorem parseVector3_spec (pyFloat : String → Option Rat) (vectorText : String)
    (delimiter : Char) (defaultValue : Rat) :
    ∃ v, parseVector3 pyFloat vectorText delimiter defaultValue = some v ∧
      v.length = 3 ∧
      v = (((splitChars delimiter vectorText.data).map fun t =>
          (pyFloat (String.mk t)).getD defaultValue).take 3 ++
        List.replicate
          (3 - ((splitChars delimiter vectorText.data).map fun t =>
            (pyFloat (String.mk t)).getD defaultValue).length)
          (((splitChars delimiter vectorText.data).map fun t =>
            (pyFloat (String.mk t)).getD defaultValue).getLastD defaultValue)) := by
  refine ⟨_, parseVector3_eq pyFloat vectorText delimiter defaultValue, ?_, rfl⟩
  have hne : (splitChars delimiter vectorText.data) ≠ [] :=
    splitChars_ne_nil delimiter vectorText.data
  have hlen : 1 ≤ ((splitChars delimiter vectorText.data).map fun t =>
      (pyFloat (String.mk t)).getD defaultValue).length := by
    cases hsc : splitChars delimiter vectorText.data with
    | nil => exact absurd hsc hne
    | cons a as => simp
  simp only [List.length_append, List.length_take, List.length_replicate]
  omega

/-- C8: for each boolean display flag backed by `_setVisibility` and
`_getVisibility` (axes, node points, node numbers, element numbers, lines,
surfaces, element axes, marker points), the getter run after the setter
returns exactly the value just set, for both values of the flag. -/
theorem displayFlag_get_after_set (st : CreatorState) (shw : Bool) :
    isDisplayAxes (setDisplayAxes st shw) = some (.vBool shw) ∧
    isDisplayNodePoints (setDisplayNodePoints st shw) = some (.vBool shw) ∧
    isDisplayNodeNumbers (setDisplayNodeNumbers st shw) = some (.vBool shw) ∧
    isDisplayElementNumbers (setDisplayElementNumbers st shw) = some (.vBool shw) ∧
    isDisplayLines (setDisplayLines st shw) = some (.vBool shw) ∧
    isDisplaySurfaces (setDisplaySurfaces st shw) = some (.vBool shw) ∧
    isDisplayElementAxes (setDisplayElementAxes st shw) = some (.vBool shw) ∧
    isDisplayMarkerPoints (setDisplayMarkerPoints st shw) = some (.vBool shw) := by
  refine ⟨?_, ?_, ?_, ?_, ?_, ?_, ?_, ?_⟩ <;>
    simp [isDisplayAxes, setDisplayAxes, isDisplayNodePoints, setDisplayNodePoints,
      isDisplayNodeNumbers, setDisplayNodeNumbers, isDisplayElementNumbers,
      setDisplayElementNumbers, isDisplayLines, setDisplayLines, isDisplaySurfaces,
      setDisplaySurfaces, isDisplayElementAxes, setDisplayElementAxes,
      isDisplayMarkerPoints, setDisplayMarkerPoints, getVisibility, setVisibility,
      SettingsDict.find?_set_self]

theorem SPkg.meshEdits_setMeshEdits (p : SPkg) (m : Option String) :
    (p.setMeshEdits m).meshEdits = m := by
  cases p; rfl

theorem SPkg.meshEdits_setUserAnnGroups (p : SPkg) (a : Nat) :
    (p.setUserAnnGroups a).meshEdits = p.meshEdits := by
  cases p; rfl

theorem SPkg.settings_setUserAnnGroups (p : SPkg) (a : Nat) :
    (p.setUserAnnGroups a).settings = p.settings := by
  cases p; rfl

theorem SPkg.scale_setUserAnnGroups (p : SPkg) (a : Nat) :
    (p.setUserAnnGroups a).scale = p.scale := by
  cases p; rfl

theorem SPkg.typeId_setUserAnnGroups (p : SPkg) (a : Nat) :
    (p.setUserAnnGroups a).typeId = p.typeId := by
  cases p; rfl

theorem SPkg.settings_setSettingsDict (p : SPkg) (s : SettingsDict) :
    (p.setSettingsDict s).settings = s := by
  cases p; rfl

theorem SPkg.meshEdits_setSettingsDict (p : SPkg) (s : SettingsDict) :
    (p.setSettingsDict s).meshEdits = p.meshEdits := by
  cases p; rfl

theorem SPkg.scale_setScale (p : SPkg) (s : List Rat) :
    (p.setScale s).scale = s := by
  cases p; rfl

theorem SPkg.settings_setScale (p : SPkg) (s : List Rat) :
    (p.setScale s).settings = p.settings := by
  cases p; rfl

theorem SPkg.typeId_setScale (p : SPkg) (s : List Rat) :
    (p.setScale s).typeId = p.typeId := by
  cases p; rfl

theorem SPkg.setUserAnnGroups_userAnnGroups (p : SPkg) :
    p.setUserAnnGroups p.userAnnGroups = p := by
  cases p; rfl

theorem topPkg_updateScaffoldEdits (env : Env) (st : CreatorState)
    (h : st.scaffoldPackages ≠ []) :
    topPkg (updateScaffoldEdits env st) =
      updateScaffoldEditsPkg env st.region st.unsavedNodeEdits (topPkg st) := by
  simp only [topPkg, updateScaffoldEdits]
  rw [List.getLastD_eq_getLast?, List.getLastD_eq_getLast?, getLast?_modifyLast]
  cases hl : st.scaffoldPackages.getLast? with
  | none => exact absurd (List.getLast?_eq_none_iff.mp hl) h
  | some p => rfl

theorem editFieldNames_eq (r : Region)
    (hc : r.fieldNames.contains "coordinates" = true) :
    editFieldNames r = "coordinates" ::
      (if r.fieldNames.contains "inner coordinates" = true
        then ["inner coordinates"] else []) := by
  have hcm : "coordinates" ∈ r.fieldNames := by
    simpa using hc
  by_cases hi : r.fieldNames.contains "inner coordinates" = true <;>
    simp [editFieldNames, List.filter_cons, hc, hi, hcm]

/-- C3: when unsaved node edits exist (as after
`getOrCreateMeshEditsNodesetGroup` has registered an edited node),
`_updateScaffoldEdits` serialises the 'meshEdits' group over the existing
coordinate fields ('coordinates' and, if present, 'inner coordinates')
into the currently edited package's mesh edits and resets the
unsaved-edits flag; otherwise the package's mesh edits string is left
unchanged. -/
theorem updateScaffoldEdits_spec (env : Env) (st : CreatorState)
    (hne : st.scaffoldPackages ≠ [])
    (hc : st.region.fieldNames.contains "coordinates" = true) :
    (st.unsavedNodeEdits = true →
      (topPkg (updateScaffoldEdits env st)).meshEdits =
        some (env.exnodeString st.region "meshEdits"
          ("coordinates" ::
            (if st.region.fieldNames.contains "inner coordinates" = true
              then ["inner coordinates"] else []))) ∧
      (updateScaffoldEdits env st).unsavedNodeEdits = false) ∧
    (st.unsavedNodeEdits = false →
      (topPkg (updateScaffoldEdits env st)).meshEdits = (topPkg st).meshEdits) ∧
    (getOrCreateMeshEditsNodesetGroup st).unsavedNodeEdits = true := by
  refine ⟨fun hu => ⟨?_, rfl⟩, fun hu => ?_, rfl⟩
  · rw [topPkg_updateScaffoldEdits env st hne]
    rw [updateScaffoldEditsPkg, hu]
    rw [editFieldNames_eq st.region hc]
    simp [SPkg.meshEdits_setUserAnnGroups, SPkg.meshEdits_setMeshEdits]
  · rw [topPkg_updateScaffoldEdits env st hne]
    rw [updateScaffoldEditsPkg, hu]
    simp [SPkg.meshEdits_setUserAnnGroups]

theorem updateScaffoldEdits_spec_witness :
    stT2.scaffoldPackages ≠ [] ∧
    stT2.region.fieldNames.contains "coordinates" = true ∧
    stT2.unsavedNodeEdits = true ∧
    (topPkg (updateScaffoldEdits envT stT2)).meshEdits = some "EX" ∧
    (updateScaffoldEdits envT stT2).unsavedNodeEdits = false := by
  have h := updateScaffoldEdits_spec envT stT2 (by decide) (by decide)
  have h1 := h.1 (by decide)
  refine ⟨by decide, by decide, by decide, ?_, h1.2⟩
  rw [h1.1]
  decide

theorem find?_reverse_eq_getLast?_filter {α : Type} (p : α → Bool) (l : List α) :
    l.reverse.find? p = (l.filter p).getLast? := by
  induction l with
  | nil => rfl
  | cons a rest ih =>
    rw [List.reverse_cons, List.find?_append, ih, List.filter_cons]
    by_cases h : p a
    · rw [if_pos h]
      cases hf : (rest.filter p).getLast? with
      | none =>
        have hnil : rest.filter p = [] := List.getLast?_eq_none_iff.mp hf
        simp [hnil, List.find?, h]
      | some b =>
        obtain ⟨c, cs, hcc⟩ : ∃ c cs, rest.filter p = c :: cs := by
          cases hfl : rest.filter p with
          | nil => rw [hfl] at hf; cases hf
          | cons c cs => exact ⟨c, cs, rfl⟩
        rw [hcc] at hf ⊢
        rw [List.getLast?_cons_cons, hf]
        simp
    · rw [if_neg h]
      simp [List.find?, h]

theorem parameterSetName_useCustom_of_none (env : Env) (st : CreatorState)
    (h : st.customScaffoldPackage = none) :
    (useCustomScaffoldPackage env st).parameterSetName = some "Custom" := by
  simp [useCustomScaffoldPackage, h]

/-- The name set by `_checkCustomParameterSet`: the last parameter-set
name whose default package equals the edited one, or 'Custom' when the
search result is falsy. -/
theorem checkCustomParameterSet_name (env : Env) (st : CreatorState) :
    (checkCustomParameterSet env st).parameterSetName =
      if pyFalsy ((getEditScaffoldParameterSetNames env st).reverse.find? fun n =>
          getDefaultScaffoldPackageForParameterSetName env st n == topPkg st) then
        some "Custom"
      else
        (getEditScaffoldParameterSetNames env st).reverse.find? fun n =>
          getDefaultScaffoldPackageForParameterSetName env st n == topPkg st := by
  have e1 : getEditScaffoldParameterSetNames env
      { st with
        customScaffoldPackage := none
        unsavedNodeEdits := false
        parameterSetName := none } =
      getEditScaffoldParameterSetNames env st := rfl
  have e2 : getDefaultScaffoldPackageForParameterSetName env
      { st with
        customScaffoldPackage := none
        unsavedNodeEdits := false
        parameterSetName := none } =
      getDefaultScaffoldPackageForParameterSetName env st := rfl
  have e3 : topPkg
      { st with
        customScaffoldPackage := none
        unsavedNodeEdits := false
        parameterSetName := none } = topPkg st := rfl
  simp only [checkCustomParameterSet, e1, e2, e3]
  by_cases hf : pyFalsy ((getEditScaffoldParameterSetNames env st).reverse.find? fun n =>
      getDefaultScaffoldPackageForParameterSetName env st n == topPkg st)
  · rw [if_pos hf, if_pos hf]
    exact parameterSetName_useCustom_of_none env _ rfl
  · rw [if_neg hf, if_neg hf]

/-- C1: after `_checkCustomParameterSet` runs (the final state-determining
step of `editScaffoldPackageOption`, `endEditScaffoldPackageOption`,
`setSettings`, `performInteractiveFunction` and `applyTransformation`,
followed at most by a name-preserving `_generateMesh`), the active
parameter set name is 'Custom' exactly when no predefined parameter set's
default package equals the edited package; when at least one matches, the
name is the last matching name in the parameter-set order.  The
hypothesis: no predefined parameter-set name is `''` or `'Custom'` (both
reserved by the code: falsy names fall back to 'Custom'). -/
theorem checkCustomParameterSet_custom_spec (env : Env) (st : CreatorState)
    (hnames : ∀ n ∈ getEditScaffoldParameterSetNames env st, n ≠ "" ∧ n ≠ "Custom") :
    ((checkCustomParameterSet env st).parameterSetName = some "Custom" ↔
      ∀ n ∈ getEditScaffoldParameterSetNames env st,
        getDefaultScaffoldPackageForParameterSetName env st n ≠ topPkg st) ∧
    ((∃ n ∈ getEditScaffoldParameterSetNames env st,
        getDefaultScaffoldPackageForParameterSetName env st n = topPkg st) →
      (checkCustomParameterSet env st).parameterSetName =
        ((getEditScaffoldParameterSetNames env st).filter fun n =>
          getDefaultScaffoldPackageForParameterSetName env st n == topPkg st).getLast?) ∧
    (∀ s : CreatorState, (generateMesh env s).parameterSetName = s.parameterSetName) := by
  rw [checkCustomParameterSet_name]
  cases hfind : (getEditScaffoldParameterSetNames env st).reverse.find? fun n =>
      getDefaultScaffoldPackageForParameterSetName env st n == topPkg st with
  | none =>
    have hall := List.find?_eq_none.mp hfind
    have hred : (if pyFalsy none = true then (some "Custom" : Option String) else none) =
        some "Custom" := rfl
    rw [hred]
    refine ⟨⟨fun _ n hn => ?_, fun _ => rfl⟩, fun hex => ?_, fun s => rfl⟩
    · have := hall n (List.mem_reverse.mpr hn)
      simpa using this
    · obtain ⟨n, hn, hmatch⟩ := hex
      have := hall n (List.mem_reverse.mpr hn)
      simp [hmatch] at this
  | some n =>
    have hprop := List.find?_some hfind
    have hmemrev := List.mem_of_find?_eq_some hfind
    have hn : n ∈ getEditScaffoldParameterSetNames env st := List.mem_reverse.mp hmemrev
    have hne2 := hnames n hn
    have hred : (if pyFalsy (some n) = true then (some "Custom" : Option String) else some n) =
        some n := by
      simp [pyFalsy, hne2.1]
    rw [hred]
    refine ⟨⟨fun hc2 => ?_, fun hnone => ?_⟩, fun _ => ?_, fun s => rfl⟩
    · exact absurd (Option.some_inj.mp hc2) hne2.2
    · exfalso
      exact hnone n hn (by simpa using hprop)
    · rw [← hfind, find?_reverse_eq_getLast?_filter]

theorem checkCustomParameterSet_custom_spec_witness :
    ((checkCustomParameterSet envT (initialState envT)).parameterSetName = some "Custom" ↔
      ∀ n ∈ getEditScaffoldParameterSetNames envT (initialState envT),
        getDefaultScaffoldPackageForParameterSetName envT (initialState envT) n ≠
          topPkg (initialState envT)) ∧
    (checkCustomParameterSet envT (initialState envT)).parameterSetName = some "Default" ∧
    (checkCustomParameterSet envT stT).parameterSetName = some "Custom" := by
  refine ⟨(checkCustomParameterSet_custom_spec envT (initialState envT) (by decide)).1,
    by decide, by decide⟩

/-- Effect of `_checkCustomParameterSet` on everything except the
parameter-set name and the custom package: the stacks are untouched apart
from a possible `updateUserAnnotationGroups` on the edited package (the
`_useCustomScaffoldPackage` fallback). -/
theorem checkCustomParameterSet_stack (env : Env) (st : CreatorState) :
    (checkCustomParameterSet env st).scaffoldPackageOptionNames =
      st.scaffoldPackageOptionNames ∧
    ((checkCustomParameterSet env st).scaffoldPackages = st.scaffoldPackages ∨
      (checkCustomParameterSet env st).scaffoldPackages =
        modifyLast (fun p => p.setUserAnnGroups (env.updateUserAnnotationGroups st.region p))
          st.scaffoldPackages) ∧
    (checkCustomParameterSet env st).region = st.region ∧
    (checkCustomParameterSet env st).settings = st.settings ∧
    (checkCustomParameterSet env st).unsavedNodeEdits = false ∧
    (checkCustomParameterSet env st).generationCount = st.generationCount ∧
    (checkCustomParameterSet env st).deleteElementRanges = st.deleteElementRanges := by
  by_cases hf : pyFalsy ((getEditScaffoldParameterSetNames env
      { st with
        customScaffoldPackage := none
        unsavedNodeEdits := false
        parameterSetName := none }).reverse.find? fun n =>
      getDefaultScaffoldPackageForParameterSetName env
        { st with
          customScaffoldPackage := none
          unsavedNodeEdits := false
          parameterSetName := none } n ==
        topPkg { st with
          customScaffoldPackage := none
          unsavedNodeEdits := false
          parameterSetName := none })
  · simp only [checkCustomParameterSet, hf, if_true, useCustomScaffoldPackage,
      saveCustomScaffoldPackage, updateScaffoldEdits, updateScaffoldEditsPkg]
    refine ⟨rfl, Or.inr rfl, rfl, rfl, rfl, rfl, rfl⟩
  · simp only [checkCustomParameterSet, hf, if_false]
    simp [hf]

/-- C2: `editScaffoldPackageOption` succeeds exactly when the named option
of the edited scaffold's settings is a ScaffoldPackage; it then clears the
mesh edits and pushes that package and its option name.
`endEditScaffoldPackageOption` fails by assertion exactly when only the
root package is on the stack; otherwise it pops both stacks and stores a
deep copy of the (edit-synchronised) package back into the parent
scaffold's settings under the same option name. -/
theorem editEndScaffoldPackageOption_spec (env : Env) (st : CreatorState)
    (optionName : String) :
    ((∃ p, (topPkg st).settings.find? optionName = some (.vPackage p)) ↔
      ∃ st', editScaffoldPackageOption env st optionName = .ok st') ∧
    (∀ p st', (topPkg st).settings.find? optionName = some (.vPackage p) →
      editScaffoldPackageOption env st optionName = .ok st' →
      st'.scaffoldPackageOptionNames =
        st.scaffoldPackageOptionNames ++ [some optionName] ∧
      st'.scaffoldPackages.dropLast =
        modifyLast (fun q => q.setMeshEdits none) st.scaffoldPackages ∧
      (∃ ann, st'.scaffoldPackages.getLast? = some (p.setUserAnnGroups ann)) ∧
      st'.unsavedNodeEdits = false) ∧
    (st.scaffoldPackages.length ≤ 1 ↔
      endEditScaffoldPackageOption env st =
        .error "Attempt to end editing root ScaffoldPackage") ∧
    (∀ st', endEditScaffoldPackageOption env st = .ok st' →
      st'.scaffoldPackageOptionNames = st.scaffoldPackageOptionNames.dropLast ∧
      st'.scaffoldPackages.length + 1 = st.scaffoldPackages.length ∧
      ∃ q, st'.scaffoldPackages.getLast? = some q ∧
        q.settings.find? (lastOptionName st) =
          some (.vPackage
            (updateScaffoldEditsPkg env st.region st.unsavedNodeEdits (topPkg st)))) := by
  refine ⟨⟨?_, ?_⟩, ?_, ?_, ?_⟩
  · rintro ⟨p, hp⟩
    exact ⟨generateMesh env (checkCustomParameterSet env
      { clearMeshEdits st with
        scaffoldPackages := (clearMeshEdits st).scaffoldPackages ++ [p]
        scaffoldPackageOptionNames :=
          (clearMeshEdits st).scaffoldPackageOptionNames ++ [some optionName] }),
      by simp only [editScaffoldPackageOption, hp]⟩
  · rintro ⟨st', hok⟩
    cases hfind : (topPkg st).settings.find? optionName with
    | none =>
      simp only [editScaffoldPackageOption, hfind] at hok
      exact Except.noConfusion hok
    | some v =>
      cases v <;>
        first
          | exact ⟨_, rfl⟩
          | (simp only [editScaffoldPackageOption, hfind] at hok
             exact Except.noConfusion hok)
  · intro p st' hp hok
    simp only [editScaffoldPackageOption, hp, Except.ok.injEq] at hok
    subst hok
    set st2 : CreatorState := { clearMeshEdits st with
      scaffoldPackages := (clearMeshEdits st).scaffoldPackages ++ [p]
      scaffoldPackageOptionNames :=
        (clearMeshEdits st).scaffoldPackageOptionNames ++ [some optionName] } with hst2
    have hcc := checkCustomParameterSet_stack env st2
    refine ⟨?_, ?_, ?_, ?_⟩
    · show (checkCustomParameterSet env st2).scaffoldPackageOptionNames = _
      rw [hcc.1]
      rfl
    · show (checkCustomParameterSet env st2).scaffoldPackages.dropLast = _
      rcases hcc.2.1 with h | h <;> rw [h]
      · show ((clearMeshEdits st).scaffoldPackages ++ [p]).dropLast = _
        rw [List.dropLast_concat]
        rfl
      · show (modifyLast _ ((clearMeshEdits st).scaffoldPackages ++ [p])).dropLast = _
        rw [modifyLast_concat, List.dropLast_concat]
        rfl
    · show ∃ ann, (checkCustomParameterSet env st2).scaffoldPackages.getLast? =
        some (p.setUserAnnGroups ann)
      rcases hcc.2.1 with h | h <;> rw [h]
      · refine ⟨p.userAnnGroups, ?_⟩
        show ((clearMeshEdits st).scaffoldPackages ++ [p]).getLast? = _
        rw [List.getLast?_concat, SPkg.setUserAnnGroups_userAnnGroups]
      · refine ⟨env.updateUserAnnotationGroups st2.region p, ?_⟩
        show (modifyLast _ ((clearMeshEdits st).scaffoldPackages ++ [p])).getLast? = _
        rw [modifyLast_concat, List.getLast?_concat]
    · show (checkCustomParameterSet env st2).unsavedNodeEdits = false
      exact hcc.2.2.2.2.1
  · constructor
    · intro h
      simp only [endEditScaffoldPackageOption, if_pos h]
    · intro h
      by_contra hgt
      simp only [endEditScaffoldPackageOption, if_neg hgt] at h
      exact Except.noConfusion h
  · intro st' hok
    by_cases hlen : st.scaffoldPackages.length ≤ 1
    · simp only [endEditScaffoldPackageOption, if_pos hlen] at hok
      exact Except.noConfusion hok
    · simp only [endEditScaffoldPackageOption, if_neg hlen, Except.ok.injEq] at hok
      subst hok
      have hne : st.scaffoldPackages ≠ [] := by
        intro hemp
        rw [hemp] at hlen
        simp at hlen
      have hlen2 : 2 ≤ st.scaffoldPackages.length := by omega
      set u := updateScaffoldEditsPkg env st.region st.unsavedNodeEdits with hu
      set st1 := updateScaffoldEdits env st with hst1
      have hst1n : st1.scaffoldPackageOptionNames = st.scaffoldPackageOptionNames := rfl
      have hst1p : st1.scaffoldPackages = modifyLast u st.scaffoldPackages := rfl
      set st2 : CreatorState := { st1 with
        scaffoldPackages := st1.scaffoldPackages.dropLast
        scaffoldPackageOptionNames := st1.scaffoldPackageOptionNames.dropLast } with hst2
      set w : SPkg → SPkg := fun q => q.setSettingsDict
        (q.settings.set (lastOptionName st1) (.vPackage (topPkg st1))) with hw
      set st3 : CreatorState := { st2 with
        scaffoldPackages := modifyLast w st2.scaffoldPackages } with hst3
      have hcc := checkCustomParameterSet_stack env st3
      have hdrop : st2.scaffoldPackages = st.scaffoldPackages.dropLast := by
        rw [hst2]
        show (modifyLast u st.scaffoldPackages).dropLast = _
        exact dropLast_modifyLast u st.scaffoldPackages
      have hdropne : st.scaffoldPackages.dropLast ≠ [] := by
        intro hemp
        have := List.length_dropLast st.scaffoldPackages
        rw [hemp] at this
        simp at this
        omega
      have htop1 : topPkg st1 = u (topPkg st) := topPkg_updateScaffoldEdits env st hne
      have hlast1 : lastOptionName st1 = lastOptionName st := rfl
      refine ⟨?_, ?_, ?_⟩
      · show (checkCustomParameterSet env st3).scaffoldPackageOptionNames = _
        rw [hcc.1]
        rfl
      · show (checkCustomParameterSet env st3).scaffoldPackages.length + 1 = _
        rcases hcc.2.1 with h | h <;> rw [h]
        · rw [hst3]
          show (modifyLast w st2.scaffoldPackages).length + 1 = _
          rw [modifyLast_length, hdrop, List.length_dropLast]
          omega
        · rw [modifyLast_length]
          rw [hst3]
          show (modifyLast w st2.scaffoldPackages).length + 1 = _
          rw [modifyLast_length, hdrop, List.length_dropLast]
          omega
      · obtain ⟨r, hr⟩ : ∃ r, st.scaffoldPackages.dropLast.getLast? = some r := by
          cases hg : st.scaffoldPackages.dropLast.getLast? with
          | none => exact absurd (List.getLast?_eq_none_iff.mp hg) hdropne
          | some r => exact ⟨r, rfl⟩
        have hlast3 : st3.scaffoldPackages.getLast? = some (w r) := by
          rw [hst3]
          show (modifyLast w st2.scaffoldPackages).getLast? = _
          rw [getLast?_modifyLast, hdrop, hr]
          rfl
        have hfoundset : (w r).settings.find? (lastOptionName st) =
            some (.vPackage (u (topPkg st))) := by
          rw [hw]
          simp only [SPkg.settings_setSettingsDict]
          rw [hlast1, htop1] at *
          rw [SettingsDict.find?_set_self]
        rcases hcc.2.1 with h | h
        · refine ⟨w r, ?_, hfoundset⟩
          show (checkCustomParameterSet env st3).scaffoldPackages.getLast? = _
          rw [h, hlast3]
        · refine ⟨(w r).setUserAnnGroups (env.updateUserAnnotationGroups st3.region (w r)),
            ?_, ?_⟩
          · show (checkCustomParameterSet env st3).scaffoldPackages.getLast? = _
            rw [h, getLast?_modifyLast, hlast3]
            rfl
          · rw [SPkg.settings_setUserAnnGroups]
            exact hfoundset

theorem updateScaffoldEdits_stackEq (env : Env) (st : CreatorState) :
    (updateScaffoldEdits env st).scaffoldPackageOptionNames =
      st.scaffoldPackageOptionNames ∧
    (updateScaffoldEdits env st).scaffoldPackages.length =
      st.scaffoldPackages.length :=
  ⟨rfl, modifyLast_length _ _⟩

theorem clearMeshEdits_stackEq (st : CreatorState) :
    (clearMeshEdits st).scaffoldPackageOptionNames =
      st.scaffoldPackageOptionNames ∧
    (clearMeshEdits st).scaffoldPackages.length = st.scaffoldPackages.length :=
  ⟨rfl, modifyLast_length _ _⟩

theorem checkCustom_stackEq (env : Env) (st : CreatorState) :
    (checkCustomParameterSet env st).scaffoldPackageOptionNames =
      st.scaffoldPackageOptionNames ∧
    (checkCustomParameterSet env st).scaffoldPackages.length =
      st.scaffoldPackages.length := by
  have h := checkCustomParameterSet_stack env st
  refine ⟨h.1, ?_⟩
  rcases h.2.1 with h2 | h2
  · rw [h2]
  · rw [h2, modifyLast_length]

theorem useCustom_stackEq (env : Env) (st : CreatorState) :
    (useCustomScaffoldPackage env st).scaffoldPackageOptionNames =
      st.scaffoldPackageOptionNames ∧
    (useCustomScaffoldPackage env st).scaffoldPackages.length =
      st.scaffoldPackages.length := by
  by_cases h : st.customScaffoldPackage = none ∨ st.parameterSetName ≠ some "Custom" <;>
    simp [useCustomScaffoldPackage, h, saveCustomScaffoldPackage,
      updateScaffoldEdits, modifyLast_length]

theorem saveCustom_stackEq (env : Env) (st : CreatorState) :
    (saveCustomScaffoldPackage env st).scaffoldPackageOptionNames =
      st.scaffoldPackageOptionNames ∧
    (saveCustomScaffoldPackage env st).scaffoldPackages.length =
      st.scaffoldPackages.length :=
  ⟨rfl, modifyLast_length _ _⟩

theorem setParameterSetName_stackEq (env : Env) (st : CreatorState) (name : String) :
    (setParameterSetName env st name).scaffoldPackageOptionNames =
      st.scaffoldPackageOptionNames ∧
    (setParameterSetName env st name).scaffoldPackages.length =
      st.scaffoldPackages.length := by
  by_cases h1 : st.parameterSetName = some "Custom" <;>
    by_cases h2 : st.scaffoldPackages.length = 1 <;>
      simp [setParameterSetName, h1, h2, saveCustomScaffoldPackage,
        updateScaffoldEdits, generateMesh, modifyLast_length, apply_ite]

theorem setScaffoldOption_stackEq (env : Env) (st : CreatorState)
    (key value : String) (st' : CreatorState) (r : Option Bool)
    (hok : setScaffoldOption env st key value = .ok (st', r)) :
    st'.scaffoldPackageOptionNames = st.scaffoldPackageOptionNames ∧
    st'.scaffoldPackages.length = st.scaffoldPackages.length := by
  simp only [setScaffoldOption] at hok
  split at hok
  · exact Except.noConfusion hok
  · split at hok
    · exact Except.noConfusion hok
    · simp only [Except.ok.injEq, Prod.mk.injEq] at hok
      rw [← hok.1]
      exact ⟨rfl, rfl⟩
    · split at hok
      · exact Except.noConfusion hok
      · split at hok <;> simp only [Except.ok.injEq, Prod.mk.injEq] at hok <;>
          rw [← hok.1]
        · exact ⟨(useCustom_stackEq env _).1.trans (clearMeshEdits_stackEq _).1,
            (useCustom_stackEq env _).2.trans
              ((clearMeshEdits_stackEq _).2.trans (modifyLast_length _ _))⟩
        · exact ⟨rfl, modifyLast_length _ _⟩

theorem performInteractiveFunction_stackEq (env : Env) (st : CreatorState)
    (functionName : String) (functionOptions : SettingsDict) :
    (performInteractiveFunction env st functionName functionOptions).1.scaffoldPackageOptionNames =
      st.scaffoldPackageOptionNames ∧
    (performInteractiveFunction env st functionName functionOptions).1.scaffoldPackages.length =
      st.scaffoldPackages.length := by
  cases hfn : env.interactiveFn (topTypeId st) functionName with
  | none => simp [performInteractiveFunction, hfn]
  | some f =>
    simp only [performInteractiveFunction, hfn]
    set st1 : CreatorState := { st with
      region := (f st.region (topPkg st).settings functionOptions).1
      scaffoldPackages := modifyLast
        (fun p => p.setSettingsDict
          (f st.region (topPkg st).settings functionOptions).2.1)
        st.scaffoldPackages } with hst1
    have hb1 : st1.scaffoldPackageOptionNames = st.scaffoldPackageOptionNames := rfl
    have hb2 : st1.scaffoldPackages.length = st.scaffoldPackages.length :=
      modifyLast_length _ _
    have hgen : ∀ s : CreatorState,
        (checkCustomParameterSet env (updateScaffoldEdits env s)).scaffoldPackageOptionNames =
          s.scaffoldPackageOptionNames ∧
        (checkCustomParameterSet env (updateScaffoldEdits env s)).scaffoldPackages.length =
          s.scaffoldPackages.length := by
      intro s
      have h1 := checkCustom_stackEq env (updateScaffoldEdits env s)
      have h2 := updateScaffoldEdits_stackEq env s
      exact ⟨h1.1.trans h2.1, h1.2.trans h2.2⟩
    split
    · exact ⟨(hgen _).1.trans hb1, (hgen _).2.trans hb2⟩
    · split
      · have hclear := clearMeshEdits_stackEq st1
        exact ⟨(hgen _).1.trans (hclear.1.trans hb1),
          (hgen _).2.trans (hclear.2.trans hb2)⟩
      · exact ⟨(hgen _).1.trans hb1, (hgen _).2.trans hb2⟩

theorem applyTransformation_stackEq (env : Env) (st : CreatorState) :
    (applyTransformation env st).scaffoldPackageOptionNames =
      st.scaffoldPackageOptionNames ∧
    (applyTransformation env st).scaffoldPackages.length =
      st.scaffoldPackages.length := by
  by_cases h : env.applyTransformationChanged (topPkg st)
  · simp only [applyTransformation, h, if_true]
    exact ⟨(checkCustom_stackEq env _).1.trans (updateScaffoldEdits_stackEq env _).1,
      (checkCustom_stackEq env _).2.trans
        ((updateScaffoldEdits_stackEq env _).2.trans (modifyLast_length _ _))⟩
  · simp [applyTransformation, h]

theorem setDeleteElementsRangesText_stackEq (env : Env) (st : CreatorState)
    (textIn : String) :
    (setDeleteElementsRangesText env st textIn).scaffoldPackageOptionNames =
      st.scaffoldPackageOptionNames ∧
    (setDeleteElementsRangesText env st textIn).scaffoldPackages.length =
      st.scaffoldPackages.length := by
  simp only [setDeleteElementsRangesText, parseDeleteElementsRangesText]
  split
  · exact ⟨(updateScaffoldEdits_stackEq env _).1, (updateScaffoldEdits_stackEq env _).2⟩
  · exact ⟨rfl, rfl⟩

/-- Shape of a successful `setSettings`: the stacks are reset to a single
root entry with option name `None`. -/
theorem setSettings_stackReset (env : Env) (st : CreatorState) (d : SettingsDict)
    (st' : CreatorState) (hok : setSettings env st d = .ok st') :
    st'.scaffoldPackageOptionNames = [none] ∧
    st'.scaffoldPackages.length = 1 := by
  simp only [setSettings] at hok
  split at hok
  · exact Except.noConfusion hok
  · split at hok
    · exact Except.noConfusion hok
    · split at hok
      · simp only [Except.ok.injEq] at hok
        rw [← hok]
        exact ⟨(checkCustom_stackEq env _).1, (checkCustom_stackEq env _).2⟩
      · exact Except.noConfusion hok

theorem gmcc_stack (env : Env) (S : CreatorState) :
    (generateMesh env (checkCustomParameterSet env S)).scaffoldPackageOptionNames =
      S.scaffoldPackageOptionNames ∧
    (generateMesh env (checkCustomParameterSet env S)).scaffoldPackages.length =
      S.scaffoldPackages.length :=
  ⟨(checkCustom_stackEq env S).1, (checkCustom_stackEq env S).2⟩

theorem stackInv_transport {st st₂ : CreatorState}
    (hn : st₂.scaffoldPackageOptionNames = st.scaffoldPackageOptionNames)
    (hp : st₂.scaffoldPackages.length = st.scaffoldPackages.length)
    (h : StackInv st) : StackInv st₂ := by
  refine ⟨?_, ?_, ?_⟩
  · rw [hp, hn]
    exact h.1
  · rw [hp]
    exact h.2.1
  · rw [hn]
    exact h.2.2

theorem head?_append_of_ne_nil {α : Type} (l l' : List α) (h : l ≠ []) :
    (l ++ l').head? = l.head? := by
  cases l with
  | nil => exact absurd rfl h
  | cons a rest => rfl

theorem head?_dropLast_of_two_le {α : Type} (l : List α) (h : 2 ≤ l.length) :
    l.dropLast.head? = l.head? := by
  cases l with
  | nil => simp at h
  | cons a rest =>
    cases rest with
    | nil => simp at h
    | cons b t => simp

/-- C9 counterexample: from the initial state, entering nested editing
reaches a state with both stacks of length 2; a successful `setSettings`
there changes both lengths to 1, although it is neither
`editScaffoldPackageOption` nor `endEditScaffoldPackageOption`. -/
theorem getLastD_modifyLast (f : SPkg → SPkg) (l : List SPkg) (d : SPkg)
    (h : l ≠ []) : (modifyLast f l).getLastD d = f (l.getLastD d) := by
  rw [List.getLastD_eq_getLast?, List.getLastD_eq_getLast?, getLast?_modifyLast]
  cases hl : l.getLast? with
  | none => exact absurd (List.getLast?_eq_none_iff.mp hl) h
  | some p => rfl

theorem modifyLast_ne_nil (f : SPkg → SPkg) (l : List SPkg) (h : l ≠ []) :
    modifyLast f l ≠ [] := by
  intro hemp
  have := modifyLast_length f l
  rw [hemp] at this
  simp at this
  exact h (List.length_eq_zero.mp this.symm)

theorem topPkg_clearMeshEdits (s : CreatorState) (hne : s.scaffoldPackages ≠ []) :
    topPkg (clearMeshEdits s) = (topPkg s).setMeshEdits none := by
  show (modifyLast _ s.scaffoldPackages).getLastD default = _
  rw [getLastD_modifyLast _ _ _ hne]
  rfl

theorem useCustom_name (env : Env) (s : CreatorState) :
    (useCustomScaffoldPackage env s).parameterSetName = some "Custom" := by
  by_cases h : s.customScaffoldPackage = none ∨ s.parameterSetName ≠ some "Custom"
  · rw [useCustomScaffoldPackage, if_pos h]
  · rw [useCustomScaffoldPackage, if_neg h]
    push_neg at h
    exact h.2

theorem useCustom_generationCount (env : Env) (s : CreatorState) :
    (useCustomScaffoldPackage env s).generationCount = s.generationCount := by
  by_cases h : s.customScaffoldPackage = none ∨ s.parameterSetName ≠ some "Custom" <;>
    simp [useCustomScaffoldPackage, h, saveCustomScaffoldPackage, updateScaffoldEdits]

theorem useCustom_unsaved (env : Env) (s : CreatorState)
    (hu : s.unsavedNodeEdits = false) :
    (useCustomScaffoldPackage env s).unsavedNodeEdits = false := by
  by_cases h : s.customScaffoldPackage = none ∨ s.parameterSetName ≠ some "Custom" <;>
    simp [useCustomScaffoldPackage, h, saveCustomScaffoldPackage,
      updateScaffoldEdits, hu]

theorem topPkg_meshEdits_useCustom (env : Env) (s : CreatorState)
    (hu : s.unsavedNodeEdits = false) (hne : s.scaffoldPackages ≠ []) :
    (topPkg (useCustomScaffoldPackage env s)).meshEdits = (topPkg s).meshEdits := by
  by_cases h : s.customScaffoldPackage = none ∨ s.parameterSetName ≠ some "Custom"
  · rw [useCustomScaffoldPackage, if_pos h]
    show (topPkg (updateScaffoldEdits env s)).meshEdits = _
    rw [topPkg_updateScaffoldEdits env s hne, updateScaffoldEditsPkg, hu]
    simp [SPkg.meshEdits_setUserAnnGroups]
  · rw [useCustomScaffoldPackage, if_neg h]

/-- C7: for every option key, when the value text fails conversion to the
option's existing type (a caught ValueError), `setScaffoldOption` returns
with the state completely unchanged: settings untouched, no mesh edits
cleared, no 'Custom' marking, no regeneration.  When conversion succeeds,
the mesh edits are cleared, the package marked 'Custom' and the mesh
regenerated exactly when the value stored after `checkOptions` differs
from the old value. -/
theorem setScaffoldOption_spec (env : Env) (st : CreatorState)
    (key value : String) (oldValue : OptionValue)
    (hold : (topPkg st).settings.find? key = some oldValue) :
    (convertScaffoldOptionValue env oldValue value = .ok none →
      setScaffoldOption env st key value = .ok (st, none)) ∧
    (∀ newValue finalValue,
      convertScaffoldOptionValue env oldValue value = .ok (some newValue) →
      (env.checkOptions (topTypeId st) ((topPkg st).settings.set key newValue)).1.find? key =
        some finalValue →
      ∃ st', setScaffoldOption env st key value =
          .ok (st', some (env.checkOptions (topTypeId st)
            ((topPkg st).settings.set key newValue)).2) ∧
        (finalValue = oldValue →
          st'.generationCount = st.generationCount ∧
          st'.parameterSetName = st.parameterSetName ∧
          (topPkg st').meshEdits = (topPkg st).meshEdits ∧
          st'.unsavedNodeEdits = st.unsavedNodeEdits ∧
          st'.region = st.region) ∧
        (finalValue ≠ oldValue →
          st'.generationCount = st.generationCount + 1 ∧
          st'.parameterSetName = some "Custom" ∧
          (topPkg st').meshEdits = none ∧
          st'.unsavedNodeEdits = false)) := by
  have hne : st.scaffoldPackages ≠ [] := by
    intro hemp
    have htop : topPkg st = .mk 0 .nil none [] [] [] 0 := by
      rw [topPkg, hemp]
      rfl
    rw [htop] at hold
    simp [SPkg.settings, SettingsDict.find?] at hold
  constructor
  · intro hconv
    simp only [setScaffoldOption, hold, hconv]
  · intro newValue finalValue hconv hfin
    set st1 : CreatorState := { st with
      scaffoldPackages := modifyLast
        (fun p => p.setSettingsDict
          (env.checkOptions (topTypeId st) ((topPkg st).settings.set key newValue)).1)
        st.scaffoldPackages } with hst1
    by_cases hchg : finalValue = oldValue
    · refine ⟨st1, ?_, ?_, ?_⟩
      · simp only [setScaffoldOption, hold, hconv, hfin]
        rw [if_neg (not_not_intro hchg)]
      · intro _
        refine ⟨rfl, rfl, ?_, rfl, rfl⟩
        show ((modifyLast _ st.scaffoldPackages).getLastD default).meshEdits = _
        rw [getLastD_modifyLast _ _ _ hne]
        exact SPkg.meshEdits_setSettingsDict _ _
      · intro hc
        exact absurd hchg hc
    · have hclearne : (clearMeshEdits st1).scaffoldPackages ≠ [] := by
        show modifyLast _ st1.scaffoldPackages ≠ []
        exact modifyLast_ne_nil _ _ (modifyLast_ne_nil _ _ hne)
      refine ⟨generateMesh env (useCustomScaffoldPackage env (clearMeshEdits st1)),
        ?_, ?_, ?_⟩
      · simp only [setScaffoldOption, hold, hconv, hfin]
        rw [if_pos hchg]
      · intro hc
        exact absurd hc hchg
      · intro _
        refine ⟨?_, ?_, ?_, ?_⟩
        · show (useCustomScaffoldPackage env (clearMeshEdits st1)).generationCount + 1 = _
          rw [useCustom_generationCount]
          rfl
        · show (useCustomScaffoldPackage env (clearMeshEdits st1)).parameterSetName =
            some "Custom"
          exact useCustom_name env _
        · show (topPkg (useCustomScaffoldPackage env (clearMeshEdits st1))).meshEdits = none
          rw [topPkg_meshEdits_useCustom env (clearMeshEdits st1) rfl hclearne]
          rw [topPkg_clearMeshEdits st1 (modifyLast_ne_nil _ _ hne)]
          exact SPkg.meshEdits_setMeshEdits _ _
        · show (useCustomScaffoldPackage env (clearMeshEdits st1)).unsavedNodeEdits = false
          exact useCustom_unsaved env _ rfl

theorem setScaffoldOption_spec_witness :
    setScaffoldOption envT stT3 "n" "x" = .ok (stT3, none) ∧
    (setScaffoldOption envT stT3 "n" "5").map (fun pr => pr.1.generationCount) =
      .ok 1 ∧
    (setScaffoldOption envT stT3 "n" "5").map (fun pr => pr.1.parameterSetName) =
      .ok (some "Custom") := by
  have h := setScaffoldOption_spec envT stT3 "n" "x" (.vInt 7) (by decide)
  have h2 := setScaffoldOption_spec envT stT3 "n" "5" (.vInt 7) (by decide)
  obtain ⟨st', hok, _, hprops⟩ := h2.2 (.vInt 5) (.vInt 5) (by decide) (by decide)
  have hp := hprops (by decide)
  refine ⟨h.1 (by decide), ?_, ?_⟩
  · rw [hok]
    show Except.ok st'.generationCount = _
    rw [hp.1]
    rfl
  · rw [hok]
    show Except.ok st'.parameterSetName = _
    rw [hp.2.1]

/-- C5: `setSettings` migrates legacy persisted settings: with no
'scaffoldPackage' entry one is constructed from 'meshTypeName' and
'meshTypeOptions' and those two keys are removed; a boolean
'displayNodeDerivatives' becomes 2 (True) or 0 (False); and a non-empty
old 'scale' text entry is parsed into the scaffold package's scale
(delimiter '*', default 1.0) with the 'scale' key deleted so it cannot
overwrite the scale on a later load. -/
theorem setSettings_migration_spec (env : Env) (st : CreatorState)
    (settingsIn : SettingsDict) (b : Bool) (name scaleText rangesText : String)
    (opts : SettingsDict) (tid : Nat) (sv : List Rat)
    (hnd : settingsIn.keys.Nodup)
    (hstnd : st.settings.keys.Nodup)
    (hsp : settingsIn.find? "scaffoldPackage" = none)
    (hmn : settingsIn.find? "meshTypeName" = some (.vStr name))
    (hty : getScaffoldTypeByName env name = some tid)
    (hmo : settingsIn.find? "meshTypeOptions" = some (.vDict opts))
    (hdd : settingsIn.find? "displayNodeDerivatives" = some (.vBool b))
    (hdr : settingsIn.find? "deleteElementRanges" = some (.vStr rangesText))
    (hsc : settingsIn.find? "scale" = some (.vStr scaleText))
    (hscne : scaleText ≠ "")
    (hsv : parseVector3 env.pyFloat scaleText '*' 1 = some sv)
    (hmn0 : st.settings.find? "meshTypeName" = none)
    (hmo0 : st.settings.find? "meshTypeOptions" = none) :
    ∃ st', setSettings env st settingsIn = .ok st' ∧
      st'.scaffoldPackages.map SPkg.scale = [sv] ∧
      st'.scaffoldPackages.map SPkg.settings =
        [(env.scaffoldPackageWithSettings tid opts).settings] ∧
      st'.scaffoldPackageOptionNames = [none] ∧
      st'.settings.find? "meshTypeName" = none ∧
      st'.settings.find? "meshTypeOptions" = none ∧
      st'.settings.find? "displayNodeDerivatives" =
        some (.vInt (if b then 2 else 0)) ∧
      st'.settings.find? "scale" = none := by
  set pkg0 : SPkg := env.scaffoldPackageWithSettings tid opts with hpkg0
  set sA : SettingsDict :=
    ((settingsIn.erase "meshTypeName").erase "meshTypeOptions").set
      "scaffoldPackage" (.vPackage pkg0) with hsA
  set sB : SettingsDict :=
    sA.set "displayNodeDerivatives" (.vInt (if b then 2 else 0)) with hsB
  set merged : SettingsDict := st.settings.update sB with hmerged
  set sC : SettingsDict := merged.set "deleteElementRanges"
    (.vStr (env.rangesToString (env.rangesFromString rangesText))) with hsC
  set p2 : SPkg := pkg0.setScale sv with hp2
  set sD : SettingsDict :=
    (sC.set "scaffoldPackage" (.vPackage p2)).erase "scale" with hsD
  set stFinal : CreatorState := { st with
    settings := sD
    deleteElementRanges := env.rangesFromString rangesText
    scaffoldPackages := [p2]
    scaffoldPackageOptionNames := [none] } with hstFinal
  have e_mig : migrateScaffoldPackage env settingsIn = .ok (sA, pkg0) := by
    simp only [migrateScaffoldPackage, hsp, hmn, hty]
    rw [SettingsDict.find?_erase_ne _ _ _ (by decide), hmo]
  have e_ddA : sA.find? "displayNodeDerivatives" = some (.vBool b) := by
    rw [hsA, SettingsDict.find?_set_ne _ _ _ _ (by decide),
      SettingsDict.find?_erase_ne _ _ _ (by decide),
      SettingsDict.find?_erase_ne _ _ _ (by decide), hdd]
  have hndB : sB.keys.Nodup := by
    rw [hsB, hsA]
    exact SettingsDict.keys_set_nodup _ _ _
      (SettingsDict.keys_set_nodup _ _ _
        (SettingsDict.keys_erase_nodup _ _
          (SettingsDict.keys_erase_nodup _ _ hnd)))
  have e_drB : sB.find? "deleteElementRanges" = some (.vStr rangesText) := by
    rw [hsB, hsA, SettingsDict.find?_set_ne _ _ _ _ (by decide),
      SettingsDict.find?_set_ne _ _ _ _ (by decide),
      SettingsDict.find?_erase_ne _ _ _ (by decide),
      SettingsDict.find?_erase_ne _ _ _ (by decide), hdr]
  have e_mdr : merged.find? "deleteElementRanges" = some (.vStr rangesText) := by
    rw [hmerged]
    exact SettingsDict.find?_update_of_find? _ _ _ _ hndB e_drB
  have e_scB : sB.find? "scale" = some (.vStr scaleText) := by
    rw [hsB, hsA, SettingsDict.find?_set_ne _ _ _ _ (by decide),
      SettingsDict.find?_set_ne _ _ _ _ (by decide),
      SettingsDict.find?_erase_ne _ _ _ (by decide),
      SettingsDict.find?_erase_ne _ _ _ (by decide), hsc]
  have e_scC : sC.find? "scale" = some (.vStr scaleText) := by
    rw [hsC, SettingsDict.find?_set_ne _ _ _ _ (by decide), hmerged]
    exact SettingsDict.find?_update_of_find? _ _ _ _ hndB e_scB
  have e_main : setSettings env st settingsIn =
      .ok (generateMesh env (checkCustomParameterSet env stFinal)) := by
    simp only [setSettings, e_mig, e_ddA, parseDeleteElementsRangesText]
    rw [← hsB, ← hmerged]
    simp only [e_mdr]
    rw [← hsC]
    simp only [e_scC]
    rw [if_pos hscne]
    simp only [hsv, ← hp2, ← hsD]
  have hstack := checkCustomParameterSet_stack env stFinal
  have hsettings : (generateMesh env (checkCustomParameterSet env stFinal)).settings =
      sD := hstack.2.2.2.1
  have e_nB : sB.find? "meshTypeName" = none := by
    rw [hsB, hsA, SettingsDict.find?_set_ne _ _ _ _ (by decide),
      SettingsDict.find?_set_ne _ _ _ _ (by decide),
      SettingsDict.find?_erase_ne _ _ _ (by decide)]
    exact SettingsDict.find?_erase_self _ _ hnd
  have e_oB : sB.find? "meshTypeOptions" = none := by
    rw [hsB, hsA, SettingsDict.find?_set_ne _ _ _ _ (by decide),
      SettingsDict.find?_set_ne _ _ _ _ (by decide)]
    exact SettingsDict.find?_erase_self _ _
      (SettingsDict.keys_erase_nodup _ _ hnd)
  have e_mn : merged.find? "meshTypeName" = none := by
    rw [hmerged, SettingsDict.find?_update_of_not_mem _ _ _
      ((SettingsDict.find?_eq_none_iff _ _).mp e_nB)]
    exact hmn0
  have e_mo : merged.find? "meshTypeOptions" = none := by
    rw [hmerged, SettingsDict.find?_update_of_not_mem _ _ _
      ((SettingsDict.find?_eq_none_iff _ _).mp e_oB)]
    exact hmo0
  have e_ddm : merged.find? "displayNodeDerivatives" =
      some (.vInt (if b then 2 else 0)) := by
    rw [hmerged]
    exact SettingsDict.find?_update_of_find? _ _ _ _ hndB
      (by rw [hsB]; exact SettingsDict.find?_set_self _ _ _)
  refine ⟨generateMesh env (checkCustomParameterSet env stFinal), e_main,
    ?_, ?_, ?_, ?_, ?_, ?_, ?_⟩
  · rcases hstack.2.1 with h | h
    · show (checkCustomParameterSet env stFinal).scaffoldPackages.map SPkg.scale = _
      rw [h]
      show [p2].map SPkg.scale = _
      simp [hp2, SPkg.scale_setScale]
    · show (checkCustomParameterSet env stFinal).scaffoldPackages.map SPkg.scale = _
      rw [h]
      show (modifyLast _ [p2]).map SPkg.scale = _
      simp [modifyLast, hp2, SPkg.scale_setUserAnnGroups, SPkg.scale_setScale]
  · rcases hstack.2.1 with h | h
    · show (checkCustomParameterSet env stFinal).scaffoldPackages.map SPkg.settings = _
      rw [h]
      show [p2].map SPkg.settings = _
      simp [hp2, SPkg.settings_setScale]
    · show (checkCustomParameterSet env stFinal).scaffoldPackages.map SPkg.settings = _
      rw [h]
      show (modifyLast _ [p2]).map SPkg.settings = _
      simp [modifyLast, hp2, SPkg.settings_setUserAnnGroups, SPkg.settings_setScale]
  · show (checkCustomParameterSet env stFinal).scaffoldPackageOptionNames = _
    rw [hstack.1]
  · rw [hsettings, hsD, SettingsDict.find?_erase_ne _ _ _ (by decide),
      SettingsDict.find?_set_ne _ _ _ _ (by decide), hsC,
      SettingsDict.find?_set_ne _ _ _ _ (by decide)]
    exact e_mn
  · rw [hsettings, hsD, SettingsDict.find?_erase_ne _ _ _ (by decide),
      SettingsDict.find?_set_ne _ _ _ _ (by decide), hsC,
      SettingsDict.find?_set_ne _ _ _ _ (by decide)]
    exact e_mo
  · rw [hsettings, hsD, SettingsDict.find?_erase_ne _ _ _ (by decide),
      SettingsDict.find?_set_ne _ _ _ _ (by decide), hsC,
      SettingsDict.find?_set_ne _ _ _ _ (by decide)]
    exact e_ddm
  · rw [hsettings, hsD]
    exact SettingsDict.find?_erase_self _ _
      (SettingsDict.keys_set_nodup _ _ _
        (by rw [hsC]
            exact SettingsDict.keys_set_nodup _ _ _
              (by rw [hmerged]
                  exact SettingsDict.keys_update_nodup _ _ hstnd)))

theorem setSettings_migration_spec_witness :
    (setSettings envT stT dC5).map (fun s => s.scaffoldPackages.map SPkg.scale) =
      .ok [[2, 2, 2]] ∧
    (setSettings envT stT dC5).map (fun s => s.settings.find? "scale") =
      .ok none ∧
    (setSettings envT stT dC5).map (fun s => s.settings.find? "meshTypeName") =
      .ok none ∧
    (setSettings envT stT dC5).map
        (fun s => s.settings.find? "displayNodeDerivatives") =
      .ok (some (.vInt 2)) := by
  obtain ⟨st', hok, hscale, hsett, hnames, hn1, hn2, hddc, hscn⟩ :=
    setSettings_migration_spec envT stT dC5 true "root" "2*2*2" ""
      SettingsDict.nil 0 [2, 2, 2] (by decide) (by decide) (by decide) (by decide)
      (by decide) (by decide) (by decide) (by decide) (by decide) (by decide)
      (by decide) (by decide) (by decide)
  refine ⟨?_, ?_, ?_, ?_⟩ <;> rw [hok]
  · show Except.ok (st'.scaffoldPackages.map SPkg.scale) = _
    rw [hscale]
  · show Except.ok (st'.settings.find? "scale") = _
    rw [hscn]
  · show Except.ok (st'.settings.find? "meshTypeName") = _
    rw [hn1]
  · show Except.ok (st'.settings.find? "displayNodeDerivatives") = _
    rw [hddc]
    rfl

/-- C6: when the settings file is missing or its contents cannot be read
or parsed, `MasterModel.loadSettings` raises nothing itself and falls back
to `_getSettings`, configuring the creator model and the segmentation data
model with their own current (default) settings; under well-formedness of
the creator's current settings dict the whole call succeeds. -/
theorem loadSettings_fallback_spec (env : Env) (m : MasterState)
    (fileContents : Option String)
    (hfail : fileContents = none ∨
      ∀ s, fileContents = some s → env.parseSettingsJson s = none) :
    loadSettings env m fileContents =
      (setSettings env m.creator m.creator.settings).map
        (fun c => { m with
          creator := c
          segmentationSettings :=
            segSetSettings m.segmentationSettings m.segmentationSettings }) ∧
    (∀ pkg k rt, m.creator.settings.keys.Nodup →
      m.creator.settings.find? "scaffoldPackage" = some (.vPackage pkg) →
      m.creator.settings.find? "displayNodeDerivatives" = some (.vInt k) →
      m.creator.settings.find? "deleteElementRanges" = some (.vStr rt) →
      m.creator.settings.find? "scale" = none →
      ∃ c, loadSettings env m fileContents = .ok { m with
        creator := c
        segmentationSettings :=
          segSetSettings m.segmentationSettings m.segmentationSettings }) := by
  have hatt : loadSettingsAttempt env m fileContents = none := by
    cases hfc : fileContents with
    | none => rfl
    | some s =>
      rcases hfail with h | h
      · rw [hfc] at h
        exact Option.noConfusion h
      · simp [loadSettingsAttempt, h s hfc]
  have hfind_sc : (masterGetSettings m).find? "scaffold_settings" =
      some (.vDict m.creator.settings) := by
    rw [masterGetSettings, SettingsDict.find?_set_ne _ _ _ _ (by decide),
      SettingsDict.find?_set_self]
  have hfind_seg : (masterGetSettings m).find? "segmentation_data_settings" =
      some (.vDict m.segmentationSettings) :=
    SettingsDict.find?_set_self _ _ _
  have hmap : loadSettings env m fileContents =
      (setSettings env m.creator m.creator.settings).map
        (fun c => { m with
          creator := c
          segmentationSettings :=
            segSetSettings m.segmentationSettings m.segmentationSettings }) := by
    simp only [loadSettings, hatt, Option.getD_none, hfind_sc]
    cases hset : setSettings env m.creator m.creator.settings with
    | error e => rfl
    | ok c => simp only [hfind_seg, Except.map]
  refine ⟨hmap, ?_⟩
  intro pkg k rt hnd hpk hdd hdr hscn
  have e_mig : migrateScaffoldPackage env m.creator.settings =
      .ok (m.creator.settings, pkg) := by
    simp only [migrateScaffoldPackage, hpk]
  have e_merged_dr :
      (m.creator.settings.update m.creator.settings).find? "deleteElementRanges" =
        some (.vStr rt) :=
    SettingsDict.find?_update_of_find? _ _ _ _ hnd hdr
  have e_scnone : ((m.creator.settings.update m.creator.settings).set
      "deleteElementRanges"
      (.vStr (env.rangesToString (env.rangesFromString rt)))).find? "scale" =
      none := by
    rw [SettingsDict.find?_set_ne _ _ _ _ (by decide),
      SettingsDict.find?_update_of_not_mem _ _ _
        ((SettingsDict.find?_eq_none_iff _ _).mp hscn)]
    exact hscn
  set stF : CreatorState := { m.creator with
    settings := (m.creator.settings.update m.creator.settings).set
      "deleteElementRanges" (.vStr (env.rangesToString (env.rangesFromString rt)))
    deleteElementRanges := env.rangesFromString rt
    scaffoldPackages := [pkg]
    scaffoldPackageOptionNames := [none] } with hstF
  have hc : setSettings env m.creator m.creator.settings =
      .ok (generateMesh env (checkCustomParameterSet env stF)) := by
    simp only [setSettings, e_mig, hdd, parseDeleteElementsRangesText,
      e_merged_dr, e_scnone]
  exact ⟨generateMesh env (checkCustomParameterSet env stF),
    by rw [hmap, hc]; rfl⟩

theorem loadSettings_fallback_spec_witness :
    (loadSettings envT mT none).toOption.isSome = true ∧
    loadSettings envT mT none =
      (setSettings envT mT.creator mT.creator.settings).map
        (fun c => { mT with
          creator := c
          segmentationSettings :=
            segSetSettings mT.segmentationSettings mT.segmentationSettings }) := by
  have h := loadSettings_fallback_spec envT mT none (Or.inl rfl)
  obtain ⟨c, hc⟩ := h.2
    (.mk 0 (.cons "child" (.vPackage (.mk 1 .nil none [] [] [] 0)) .nil) none [] [] [] 0)
    0 "" (by decide) (by decide) (by decide) (by decide) (by decide)
  refine ⟨?_, h.1⟩
  rw [hc]
  rfl

theorem stackInv_setSettings_cex :
    (editScaffoldPackageOption envT (initialState envT) "child").map
        (fun s => s.scaffoldPackages.length) = .ok 2 ∧
    (editScaffoldPackageOption envT (initialState envT) "child").map
        (fun s => s.scaffoldPackageOptionNames.length) = .ok 2 ∧
    ((editScaffoldPackageOption envT (initialState envT) "child").bind
        (fun s => setSettings envT s dT)).map
        (fun s => s.scaffoldPackages.length) = .ok 1 ∧
    ((editScaffoldPackageOption envT (initialState envT) "child").bind
        (fun s => setSettings envT s dT)).map
        (fun s => s.scaffoldPackageOptionNames.length) = .ok 1 := by
  refine ⟨by decide, by decide, by decide, by decide⟩

/-- C9 (amended): the stack invariant (equal lengths, at least one entry,
root option name `None`) holds initially and is preserved by every
modelled public operation; the operations changing the lengths are
`editScaffoldPackageOption` (both grow by one), `endEditScaffoldPackageOption`
(both shrink by one, never below one) and `setSettings` (both reset to a
single root entry); every other operation leaves the option-name stack
unchanged and the package-stack length unchanged. -/
theorem stackInv_preserved_spec (env : Env) :
    StackInv (initialState env) ∧
    (∀ st optionName st', editScaffoldPackageOption env st optionName = .ok st' →
      StackInv st → StackInv st' ∧
        st'.scaffoldPackages.length = st.scaffoldPackages.length + 1 ∧
        st'.scaffoldPackageOptionNames =
          st.scaffoldPackageOptionNames ++ [some optionName]) ∧
    (∀ st st', endEditScaffoldPackageOption env st = .ok st' →
      StackInv st → StackInv st' ∧
        st'.scaffoldPackages.length + 1 = st.scaffoldPackages.length ∧
        st'.scaffoldPackageOptionNames = st.scaffoldPackageOptionNames.dropLast ∧
        1 ≤ st'.scaffoldPackages.length) ∧
    (∀ st d st', setSettings env st d = .ok st' →
      StackInv st' ∧ st'.scaffoldPackages.length = 1 ∧
        st'.scaffoldPackageOptionNames = [none]) ∧
    (∀ st name, StackInv st → StackInv (setParameterSetName env st name) ∧
      (setParameterSetName env st name).scaffoldPackages.length =
        st.scaffoldPackages.length ∧
      (setParameterSetName env st name).scaffoldPackageOptionNames =
        st.scaffoldPackageOptionNames) ∧
    (∀ st key value st' r, setScaffoldOption env st key value = .ok (st', r) →
      StackInv st → StackInv st' ∧
        st'.scaffoldPackages.length = st.scaffoldPackages.length ∧
        st'.scaffoldPackageOptionNames = st.scaffoldPackageOptionNames) ∧
    (∀ st fn opts, StackInv st →
      StackInv (performInteractiveFunction env st fn opts).1 ∧
      (performInteractiveFunction env st fn opts).1.scaffoldPackages.length =
        st.scaffoldPackages.length ∧
      (performInteractiveFunction env st fn opts).1.scaffoldPackageOptionNames =
        st.scaffoldPackageOptionNames) ∧
    (∀ st, StackInv st → StackInv (applyTransformation env st) ∧
      (applyTransformation env st).scaffoldPackages.length =
        st.scaffoldPackages.length ∧
      (applyTransformation env st).scaffoldPackageOptionNames =
        st.scaffoldPackageOptionNames) ∧
    (∀ st t, StackInv st → StackInv (setDeleteElementsRangesText env st t) ∧
      (setDeleteElementsRangesText env st t).scaffoldPackages.length =
        st.scaffoldPackages.length ∧
      (setDeleteElementsRangesText env st t).scaffoldPackageOptionNames =
        st.scaffoldPackageOptionNames) ∧
    (∀ st, StackInv st → StackInv (getOrCreateMeshEditsNodesetGroup st) ∧
      (getOrCreateMeshEditsNodesetGroup st).scaffoldPackages.length =
        st.scaffoldPackages.length ∧
      (getOrCreateMeshEditsNodesetGroup st).scaffoldPackageOptionNames =
        st.scaffoldPackageOptionNames) ∧
    (∀ st gname b, StackInv st → StackInv (setVisibility st gname b) ∧
      (setVisibility st gname b).scaffoldPackages.length =
        st.scaffoldPackages.length ∧
      (setVisibility st gname b).scaffoldPackageOptionNames =
        st.scaffoldPackageOptionNames) := by
  refine ⟨⟨rfl, by simp [initialState], rfl⟩, ?_, ?_, ?_, ?_, ?_, ?_, ?_, ?_, ?_, ?_⟩
  · -- editScaffoldPackageOption
    intro st optionName st' hok hinv
    have h1 := hinv.1
    have h2 := hinv.2.1
    have hnne : st.scaffoldPackageOptionNames ≠ [] := by
      intro hemp
      rw [hemp] at h1
      simp only [List.length_nil] at h1
      omega
    simp only [editScaffoldPackageOption] at hok
    split at hok
    case _ =>
      simp only [Except.ok.injEq] at hok
      rw [← hok]
      refine ⟨⟨?_, ?_, ?_⟩, ?_, ?_⟩
      · rw [(gmcc_stack env _).1, (gmcc_stack env _).2]
        simp only [List.length_append, List.length_cons, List.length_nil,
          (clearMeshEdits_stackEq st).1, (clearMeshEdits_stackEq st).2]
        omega
      · rw [(gmcc_stack env _).2]
        simp only [List.length_append, List.length_cons, List.length_nil]
        omega
      · rw [(gmcc_stack env _).1]
        show ((clearMeshEdits st).scaffoldPackageOptionNames ++ [some optionName]).head? =
          some none
        rw [show (clearMeshEdits st).scaffoldPackageOptionNames =
          st.scaffoldPackageOptionNames from rfl]
        rw [head?_append_of_ne_nil _ _ hnne]
        exact hinv.2.2
      · rw [(gmcc_stack env _).2]
        simp only [List.length_append, List.length_cons, List.length_nil,
          (clearMeshEdits_stackEq st).2]
      · exact (gmcc_stack env _).1
    all_goals exact Except.noConfusion hok
  · -- endEditScaffoldPackageOption
    intro st st' hok hinv
    have h1 := hinv.1
    simp only [endEditScaffoldPackageOption] at hok
    split at hok
    case _ hlen1 =>
      exact Except.noConfusion hok
    case _ hlen1 =>
      simp only [Except.ok.injEq] at hok
      rw [← hok]
      have hlen2 : 2 ≤ st.scaffoldPackages.length := by omega
      refine ⟨⟨?_, ?_, ?_⟩, ?_, ?_, ?_⟩
      · rw [(gmcc_stack env _).1, (gmcc_stack env _).2]
        simp only [modifyLast_length, List.length_dropLast,
          (updateScaffoldEdits_stackEq env st).1, (updateScaffoldEdits_stackEq env st).2]
        omega
      · rw [(gmcc_stack env _).2]
        simp only [modifyLast_length, List.length_dropLast,
          (updateScaffoldEdits_stackEq env st).2]
        omega
      · rw [(gmcc_stack env _).1]
        show (updateScaffoldEdits env st).scaffoldPackageOptionNames.dropLast.head? =
          some none
        rw [show (updateScaffoldEdits env st).scaffoldPackageOptionNames =
          st.scaffoldPackageOptionNames from rfl]
        rw [head?_dropLast_of_two_le _ (by omega)]
        exact hinv.2.2
      · rw [(gmcc_stack env _).2]
        simp only [modifyLast_length, List.length_dropLast,
          (updateScaffoldEdits_stackEq env st).2]
        omega
      · exact (gmcc_stack env _).1
      · rw [(gmcc_stack env _).2]
        simp only [modifyLast_length, List.length_dropLast,
          (updateScaffoldEdits_stackEq env st).2]
        omega
  · -- setSettings
    intro st d st' hok
    have h := setSettings_stackReset env st d st' hok
    refine ⟨⟨?_, ?_, ?_⟩, h.2, h.1⟩
    · rw [h.2, h.1]
      rfl
    · rw [h.2]
    · rw [h.1]
      rfl
  · -- setParameterSetName
    intro st name hinv
    have h := setParameterSetName_stackEq env st name
    exact ⟨stackInv_transport h.1 h.2 hinv, h.2, h.1⟩
  · -- setScaffoldOption
    intro st key value st' r hok hinv
    have h := setScaffoldOption_stackEq env st key value st' r hok
    exact ⟨stackInv_transport h.1 h.2 hinv, h.2, h.1⟩
  · -- performInteractiveFunction
    intro st fn opts hinv
    have h := performInteractiveFunction_stackEq env st fn opts
    exact ⟨stackInv_transport h.1 h.2 hinv, h.2, h.1⟩
  · -- applyTransformation
    intro st hinv
    have h := applyTransformation_stackEq env st
    exact ⟨stackInv_transport h.1 h.2 hinv, h.2, h.1⟩
  · -- setDeleteElementsRangesText
    intro st t hinv
    have h := setDeleteElementsRangesText_stackEq env st t
    exact ⟨stackInv_transport h.1 h.2 hinv, h.2, h.1⟩
  · -- getOrCreateMeshEditsNodesetGroup
    intro st hinv
    exact ⟨stackInv_transport rfl rfl hinv, rfl, rfl⟩
  · -- setVisibility
    intro st gname b hinv
    exact ⟨stackInv_transport rfl rfl hinv, rfl, rfl⟩

theorem stackInv_preserved_spec_witness :
    StackInv (initialState envT) ∧
    (editScaffoldPackageOption envT (initialState envT) "child").map
        (fun s => s.scaffoldPackages.length) = .ok 2 := by
  have hmain := stackInv_preserved_spec envT
  refine ⟨hmain.1, ?_⟩
  cases hok : editScaffoldPackageOption envT (initialState envT) "child" with
  | error e =>
    have hsome : (editScaffoldPackageOption envT (initialState envT) "child").toOption.isSome =
        true := by decide
    rw [hok] at hsome
    simp [Except.toOption] at hsome
  | ok st' =>
    have h2 := hmain.2.1 (initialState envT) "child" st' hok hmain.1
    show Except.ok st'.scaffoldPackages.length = _
    rw [h2.2.1]
    rfl

theorem editEndScaffoldPackageOption_spec_witness :
    (editScaffoldPackageOption envT (initialState envT) "child").map
        (fun s => s.scaffoldPackageOptionNames) = .ok [none, some "child"] ∧
    endEditScaffoldPackageOption envT stT =
      .error "Attempt to end editing root ScaffoldPackage" := by
  have h := editEndScaffoldPackageOption_spec envT (initialState envT) "child"
  obtain ⟨st', hok⟩ := h.1.mp ⟨.mk 1 .nil none [] [] [] 0, by decide⟩
  have h2 := h.2.1 (.mk 1 .nil none [] [] [] 0) st' (by decide) hok
  constructor
  · rw [hok]
    show Except.ok st'.scaffoldPackageOptionNames = _
    rw [h2.1]
    rfl
  · exact (editEndScaffoldPackageOption_spec envT stT "x").2.2.1.mp (by decide)

/-- C4: `ScaffoldCreator.serialize` and `ScaffoldCreator.deserialize` are
mutually inverse on the step's config (string 'identifier', boolean
'AutoDone'): deserialising the serialisation of a config into a step
holding any config of that shape (in particular the freshly constructed
default) restores the serialised config exactly. -/
theorem step_serialize_deserialize_inverse (s0 s : String) (b0 b : Bool) :
    stepDeserialize [("identifier", .jStr s0), ("AutoDone", .jBool b0)]
        (stepSerialize [("identifier", .jStr s), ("AutoDone", .jBool b)]) =
      [("identifier", .jStr s), ("AutoDone", .jBool b)] ∧
    stepDeserialize defaultStepConfig
        (stepSerialize [("identifier", .jStr s), ("AutoDone", .jBool b)]) =
      [("identifier", .jStr s), ("AutoDone", .jBool b)] := by
  constructor <;>
    simp [stepSerialize, stepDeserialize, sortByKey, insertSortedByKey,
      jupdate, jset, defaultStepConfig]

end ScaffoldCreatorSpec
